import Mathlib

/-!
Verification development for the hass-issues-collect repository: two scripts
that forward a GitHub issue webhook event into a Feishu Bitable table
(src/script/issue_to_feishu.py) and into a MySQL table
(src/script/issue_to_mysql.py).  Python values decoded from JSON are
modelled by the `Json` inductive (numbers as integers, which covers every
field the scripts touch), environment variables by `String → Option String`,
the event file by an oracle `String → Option (List (String × Json))`
(`none` models a missing or unparsable file), the Feishu HTTP service by an
explicit handler threaded through the client, and the MySQL server by an
association table keyed by the primary key.  `raise SystemExit(msg)` and
uncaught exceptions are both modelled as `Except.error`: either way the
process terminates with a nonzero status before performing any further
external call.
-/

namespace HIC

/-- Decoded JSON values, as produced by Python's `json.load`.  JSON numbers
are modelled as integers: every numeric field the scripts read (issue id,
issue number, API response code) is an integer in the GitHub and Feishu
payloads. -/
inductive Json where
  | null : Json
  | bool (b : Bool) : Json
  | num (n : Int) : Json
  | str (s : String) : Json
  | arr (xs : List Json) : Json
  | obj (kvs : List (String × Json)) : Json

/-- Lookup of a key in a decoded JSON object body, first occurrence wins
(Python dicts cannot hold duplicate keys, so the first is the only one). -/
def Json.lookup : List (String × Json) → String → Option Json
  | [], _ => none
  | (k, v) :: rest, key => if k = key then some v else Json.lookup rest key

/-- Python's `dict.get(key)` on a decoded JSON value: `none` when the key is
absent or the value is not a dict.  (On a non-dict Python would raise
`AttributeError`, also an abort; the scripts only call `.get` on values that
are dicts in well-formed payloads.) -/
def Json.get? : Json → String → Option Json
  | Json.obj kvs, key => Json.lookup kvs key
  | _, _ => none

/-- Python's `dict.get(key, default)`. -/
def Json.getOr (j : Json) (key : String) (default : Json) : Json :=
  (Json.get? j key).getD default

/-- Python truthiness of a decoded JSON value (`if value:`). -/
def Json.truthy : Json → Bool
  | Json.null => false
  | Json.bool b => b
  | Json.num n => n != 0
  | Json.str s => s ≠ ("")
  | Json.arr xs => xs.isEmpty = false
  | Json.obj kvs => kvs.isEmpty = false

/-- Iterating over a decoded JSON value that the payload contract makes a
list (`issue.get("labels", [])`).  A non-list value would raise `TypeError`
in Python; the scripts never reach that case for well-formed payloads and
the model folds it to the empty list. -/
def Json.asArr : Json → List Json
  | Json.arr xs => xs
  | _ => []

/-- Rendering of a decoded JSON value inside a Python f-string
(`f"...: {response}"`).  The exact quoting of Python's `repr` is not load
bearing anywhere; what matters is that the rendered response is embedded in
the error message, which this concrete injective-enough rendering
captures. -/
def jsonToString : Json → String
  | Json.null => ("None")
  | Json.bool true => ("True")
  | Json.bool false => ("False")
  | Json.num n => toString n
  | Json.str s => ("\x27") ++ s ++ ("\x27")
  | Json.arr xs =>
      ("[") ++ String.intercalate (", ") (xs.attach.map (fun x => jsonToString x.1)) ++ ("]")
  | Json.obj kvs =>
      ("\x7b") ++
        String.intercalate (", ")
          (kvs.attach.map (fun kv => ("\x27") ++ kv.1.1 ++ ("\x27: ") ++ jsonToString kv.1.2)) ++
        ("\x7d")
decreasing_by
  · have h := List.sizeOf_lt_of_mem x.2
    simp only [Json.arr.sizeOf_spec]
    omega
  · obtain ⟨⟨k, v⟩, hm⟩ := kv
    have h := List.sizeOf_lt_of_mem hm
    simp only [Json.obj.sizeOf_spec, Prod.mk.sizeOf_spec] at h ⊢
    omega

/-- Python's `str()` applied to a decoded JSON value, as in
`str(issue.get("id"))`. -/
def pyStr : Json → String
  | Json.null => ("None")
  | Json.bool true => ("True")
  | Json.bool false => ("False")
  | Json.num n => toString n
  | Json.str s => s
  | Json.arr xs => jsonToString (Json.arr xs)
  | Json.obj kvs => jsonToString (Json.obj kvs)

/-- Python's `json.dumps(value, ensure_ascii=True)`.  String escaping is not
modelled (no claim depends on the exact serialized bytes, only on which
value is serialized into which column). -/
def jsonDumps : Json → String
  | Json.null => ("null")
  | Json.bool true => ("true")
  | Json.bool false => ("false")
  | Json.num n => toString n
  | Json.str s => ("\x22") ++ s ++ ("\x22")
  | Json.arr xs =>
      ("[") ++ String.intercalate (", ") (xs.attach.map (fun x => jsonDumps x.1)) ++ ("]")
  | Json.obj kvs =>
      ("\x7b") ++
        String.intercalate (", ")
          (kvs.attach.map (fun kv => ("\x22") ++ kv.1.1 ++ ("\x22: ") ++ jsonDumps kv.1.2)) ++
        ("\x7d")
decreasing_by
  · have h := List.sizeOf_lt_of_mem x.2
    simp only [Json.arr.sizeOf_spec]
    omega
  · obtain ⟨⟨k, v⟩, hm⟩ := kv
    have h := List.sizeOf_lt_of_mem hm
    simp only [Json.obj.sizeOf_spec, Prod.mk.sizeOf_spec] at h ⊢
    omega

/-- Shared list comprehension of both scripts:
`[item.get(key) for item in items if item.get(key)]` — the label-name and
assignee-login extraction (`key` is `"name"` for labels, `"login"` for
assignees). -/
def extractNames (items : List Json) (key : String) : List Json :=
  items.filterMap (fun item =>
    match Json.get? item key with
    | some v => if Json.truthy v then some v else none
    | none => none)

/-- The process environment: a partial map from variable names to values.
A variable set to the empty string maps to `some ""`, an unset variable to
`none` (exactly `os.environ`'s view as exposed by `os.getenv`). -/
abbrev Env := String → Option String

/-- Python's `os.getenv(name, default)`. -/
def osGetenv (env : Env) (name : String) (default : Option String) : Option String :=
  match env name with
  | some v => some v
  | none => default

end HIC

namespace HIC.Ts

/-- A parsed `datetime` value: calendar fields plus an optional UTC offset
in minutes (`none` models a naive datetime, `some o` an aware one). -/
structure CivilDT where
  year : Nat
  month : Nat
  day : Nat
  hour : Nat
  minute : Nat
  second : Nat
  offsetMin : Option Int
deriving DecidableEq

/-- Numeric value of a decimal digit character. -/
def digitVal (c : Char) : Option Nat :=
  if c.isDigit then some (c.toNat - 48) else none

/-- Parse exactly two decimal digits. -/
def parse2 : List Char → Option (Nat × List Char)
  | a :: b :: rest =>
    match digitVal a, digitVal b with
    | some x, some y => some (10 * x + y, rest)
    | _, _ => none
  | _ => none

/-- Parse exactly four decimal digits. -/
def parse4 : List Char → Option (Nat × List Char)
  | a :: b :: c :: d :: rest =>
    match digitVal a, digitVal b, digitVal c, digitVal d with
    | some x, some y, some z, some w => some (1000 * x + 100 * y + 10 * z + w, rest)
    | _, _, _, _ => none
  | _ => none

/-- Consume one expected character. -/
def expectChar (c : Char) : List Char → Option (List Char)
  | x :: rest => if x = c then some rest else none
  | [] => none

/-- Gregorian leap year rule, as used by Python's `datetime`. -/
def isLeapYear (y : Nat) : Bool :=
  (y % 4 == 0) && ((y % 100 != 0) || (y % 400 == 0))

/-- Days in a month of the proleptic Gregorian calendar. -/
def daysInMonth (y m : Nat) : Nat :=
  if m = 2 then (if isLeapYear y then 29 else 28)
  else if m = 4 ∨ m = 6 ∨ m = 9 ∨ m = 11 then 30
  else 31

/-- Parse a two-field `HH:MM` group with range checks. -/
def parseHM (cs : List Char) : Option ((Nat × Nat) × List Char) :=
  match parse2 cs with
  | none => none
  | some (h, r1) =>
    match expectChar (':') r1 with
    | none => none
    | some r2 =>
      match parse2 r2 with
      | none => none
      | some (mi, r3) => if h < 24 ∧ mi < 60 then some ((h, mi), r3) else none

/-- Parse a `+HH:MM` or `-HH:MM` UTC offset, in minutes. -/
def parseOffsetPart : List Char → Option (Int × List Char)
  | ('+') :: rest =>
    match parseHM rest with
    | some (hm, r) => some (((hm.1 * 60 + hm.2 : Nat) : Int), r)
    | none => none
  | ('-') :: rest =>
    match parseHM rest with
    | some (hm, r) => some (-((hm.1 * 60 + hm.2 : Nat) : Int), r)
    | none => none
  | _ => none

/-- Trailing offset (or nothing) after the time fields, with range checks on
the time fields. -/
def finishOffset (y mo d h mi se : Nat) (r : List Char) : Option CivilDT :=
  match r with
  | [] => if h < 24 ∧ mi < 60 ∧ se < 60 then some ⟨y, mo, d, h, mi, se, none⟩ else none
  | _ =>
    match parseOffsetPart r with
    | some (off, []) =>
        if h < 24 ∧ mi < 60 ∧ se < 60 then some ⟨y, mo, d, h, mi, se, some off⟩ else none
    | _ => none

/-- Optional `:SS` after `HH:MM`, then the trailing offset. -/
def finishTime (y mo d h mi : Nat) (r : List Char) : Option CivilDT :=
  match r with
  | (':') :: r2 =>
    match parse2 r2 with
    | none => none
    | some (se, r3) => finishOffset y mo d h mi se r3
  | _ => finishOffset y mo d h mi 0 r

/-- Modelled from the spec: Python's `datetime.fromisoformat` (standard
library, not part of this repository), restricted to the ISO-8601 forms the
spec describes for GitHub timestamps — `YYYY-MM-DD`, optionally followed by
a `T` or space separator, `HH:MM` or `HH:MM:SS`, and an optional `±HH:MM`
UTC offset.  Returns `none` where Python raises `ValueError`. -/
def fromisoformat (s : String) : Option CivilDT :=
  match parse4 s.data with
  | none => none
  | some (y, r1) =>
  match expectChar ('-') r1 with
  | none => none
  | some r2 =>
  match parse2 r2 with
  | none => none
  | some (mo, r3) =>
  match expectChar ('-') r3 with
  | none => none
  | some r4 =>
  match parse2 r4 with
  | none => none
  | some (d, r5) =>
  if 1 ≤ y ∧ 1 ≤ mo ∧ mo ≤ 12 ∧ 1 ≤ d ∧ d ≤ daysInMonth y mo then
    match r5 with
    | [] => some ⟨y, mo, d, 0, 0, 0, none⟩
    | sep :: r6 =>
      if sep = ('T') ∨ sep = (' ') then
        match parse2 r6 with
        | none => none
        | some (h, r7) =>
        match expectChar (':') r7 with
        | none => none
        | some r8 =>
        match parse2 r8 with
        | none => none
        | some (mi, r9) => finishTime y mo d h mi r9
      else none
  else none

/-- Days since 1970-01-01 of a proleptic Gregorian date (the standard
civil-from-days algorithm). -/
def daysFromCivil (y m d : Nat) : Int :=
  let yAdj := if m ≤ 2 then y - 1 else y
  let era := yAdj / 400
  let yoe := yAdj - era * 400
  let mp := (m + 9) % 12
  let doy := (153 * mp + 2) / 5 + (d - 1)
  let doe := yoe * 365 + yoe / 4 - yoe / 100 + doy
  ((era * 146097 + doe : Nat) : Int) - 719468

/-- The instant denoted by calendar fields at a given UTC offset, in seconds
since the Unix epoch. -/
def civilToEpochSeconds (c : CivilDT) (offMin : Int) : Int :=
  daysFromCivil c.year c.month c.day * 86400 +
    ((c.hour * 3600 + c.minute * 60 + c.second : Nat) : Int) - offMin * 60

/-- Inverse calendar conversion: days since the epoch back to a Gregorian
date (the standard days-from-civil inverse). -/
def civilFromDays (z0 : Int) : Nat × Nat × Nat :=
  let z := z0 + 719468
  let era := Int.ediv z 146097
  let doe := z - era * 146097
  let yoe := Int.ediv (doe - Int.ediv doe 1460 + Int.ediv doe 36524 - Int.ediv doe 146096) 365
  let y := yoe + era * 400
  let doy := doe - (365 * yoe + Int.ediv yoe 4 - Int.ediv yoe 100)
  let mp := Int.ediv (5 * doy + 2) 153
  let d := doy - Int.ediv (153 * mp + 2) 5 + 1
  let m := mp + (if mp < 10 then 3 else -9)
  let yy := y + (if m ≤ 2 then 1 else 0)
  (yy.toNat, m.toNat, d.toNat)

/-- UTC calendar view of an instant (what `astimezone(timezone.utc)`
produces for that instant). -/
def epochToCivilUtc (t : Int) : CivilDT :=
  let days := Int.ediv t 86400
  let sod := (Int.emod t 86400).toNat
  let ymd := civilFromDays days
  ⟨ymd.1, ymd.2.1, ymd.2.2, sod / 3600, sod / 60 % 60, sod % 60, some 0⟩

/-- Modelled from the spec: `datetime.astimezone(timezone.utc)` (standard
library), as the instant the resulting UTC datetime denotes.  An aware
datetime keeps its own instant; a naive one is interpreted in the local
timezone, whose fixed offset in minutes is the parameter `localOffMin`. -/
def astimezoneUtcSeconds (c : CivilDT) (localOffMin : Int) : Int :=
  match c.offsetMin with
  | some off => civilToEpochSeconds c off
  | none => civilToEpochSeconds c localOffMin

/-- Zero-padded two-digit decimal rendering. -/
def pad2 (n : Nat) : String :=
  if n < 10 then ("0") ++ Nat.repr n else Nat.repr n

/-- Zero-padded four-digit decimal rendering. -/
def pad4 (n : Nat) : String :=
  if n < 10 then ("000") ++ Nat.repr n
  else if n < 100 then ("00") ++ Nat.repr n
  else if n < 1000 then ("0") ++ Nat.repr n
  else Nat.repr n

/-- Modelled from the spec: `datetime.isoformat()` (standard library) of a
UTC-aware datetime, rendered from the instant it denotes. -/
def isoformatUtc (t : Int) : String :=
  let c := epochToCivilUtc t
  pad4 c.year ++ ("-") ++ pad2 c.month ++ ("-") ++ pad2 c.day ++ ("T") ++
    pad2 c.hour ++ (":") ++ pad2 c.minute ++ (":") ++ pad2 c.second ++ ("+00:00")

/-- Replacement of every occurrence of the character `Z` by `+00:00` in a
character list: `value.replace("Z", "+00:00")` specialised to the
single-character pattern the scripts use. -/
def replaceZdata : List Char → List Char
  | [] => []
  | c :: cs =>
    if c = ('Z') then ('+') :: ('0') :: ('0') :: (':') :: ('0') :: ('0') :: replaceZdata cs
    else c :: replaceZdata cs

/-- Python's `value.replace("Z", "+00:00")`. -/
def replaceZ (s : String) : String := ⟨replaceZdata s.data⟩

end HIC.Ts

namespace HIC.Feishu

open HIC HIC.Ts

/-- The `_env` helper of issue_to_feishu.py: `os.getenv(name, default)`,
fatal when the result is `None` or the empty string. -/
def _env (env : Env) (name : String) (default : Option String) : Except String String :=
  match osGetenv env name default with
  | none => Except.error (("Missing required env var: ") ++ name)
  | some value =>
    if value = ("") then Except.error (("Missing required env var: ") ++ name)
    else Except.ok value

/-- The `_parse_github_timestamp` helper of issue_to_feishu.py.  The input
is the `str | None` value taken from the payload; a falsy input (missing or
empty) yields `None`, otherwise the string is parsed after replacing `Z`
with `+00:00` and rendered back as the `isoformat()` of the corresponding
UTC instant.  `localOffMin` is the fixed local-timezone offset that
`astimezone` would use for a naive datetime.  A `ValueError` from
`fromisoformat` is a fatal uncaught exception, modelled as `Except.error`. -/
def _parse_github_timestamp (localOffMin : Int) (value : Option String) :
    Except String (Option String) :=
  match value with
  | none => Except.ok none
  | some v =>
    if v = ("") then Except.ok none
    else
      match fromisoformat (replaceZ v) with
      | none => Except.error (("Invalid isoformat string: ") ++ v)
      | some c => Except.ok (some (isoformatUtc (astimezoneUtcSeconds c localOffMin)))

/-- Adapter applying `_parse_github_timestamp` to the raw JSON value of
`issue.get(...)`: any falsy value is caught by the function's `if not value`
guard; a truthy non-string would raise `AttributeError` at
`value.replace`. -/
def parseTsJson (localOffMin : Int) (v : Option Json) : Except String (Option String) :=
  match v with
  | none => Except.ok none
  | some j =>
    if Json.truthy j = false then Except.ok none
    else
      match j with
      | Json.str s => _parse_github_timestamp localOffMin (some s)
      | _ => Except.error (("AttributeError: replace"))

/-- The `_truncate` helper of issue_to_feishu.py.  Python strings are
sequences of code points, so `len` is `String.length` and slicing is
`String.take`.  The single call site uses `limit = 5000`, for which the
natural subtraction `limit - 3` agrees with Python's. -/
def _truncate (value : Option String) (limit : Nat) : Option String :=
  match value with
  | none => none
  | some v =>
    if v.length ≤ limit then some v
    else some (v.take (limit - 3) ++ ("..."))

/-- Adapter applying `_truncate` to the raw JSON value of
`issue.get("body")`: `None` passes through, a string is truncated, and any
other value would raise `TypeError` at `len(value)`. -/
def truncateJson (v : Json) (limit : Nat) : Except String Json :=
  match v with
  | Json.null => Except.ok Json.null
  | Json.str s =>
    Except.ok (match _truncate (some s) limit with
      | some t => Json.str t
      | none => Json.null)
  | _ => Except.error (("TypeError: object of this type has no len"))

/-- One HTTP request as issued by `_request_json`. -/
structure NetCall where
  method : String
  url : String
  headers : List (String × String)
  payload : Json

/-- The outcome of one HTTP exchange as seen by the client: either
`urllib.error.HTTPError` (any non-success HTTP status raises it from
`urlopen`) carrying the status code, reason and response body, or a decoded
JSON response body. -/
inductive HttpResp where
  | httpError (code : Nat) (reason : String) (detail : String) : HttpResp
  | ok (body : Json) : HttpResp

/-- Client-side view of the external world: the remote service state `W`
plus the ordered log of HTTP requests issued so far. -/
structure NetState (W : Type) where
  world : W
  log : List NetCall

/-- The `Content-Type` header used by every request. -/
def jsonHeaders : List (String × String) :=
  [(("Content-Type"), ("application/json; charset=utf-8"))]

/-- Headers of an authenticated request. -/
def authHeaders (token : String) : List (String × String) :=
  [(("Content-Type"), ("application/json; charset=utf-8")),
   (("Authorization"), ("Bearer ") ++ token)]

/-- The `_request_json` helper of issue_to_feishu.py, over an abstract
service handler `h` that consumes one request and produces one response
together with the next service state.  An `HTTPError` is re-raised as
`SystemExit` with the status line and response body in the message; the
request itself has been issued either way, so it is appended to the log. -/
def _request_json {W : Type} (h : W → NetCall → HttpResp × W) (method url : String)
    (headers : List (String × String)) (payload : Json) (s : NetState W) :
    Except String Json × NetState W :=
  let call : NetCall := ⟨method, url, headers, payload⟩
  let r := h s.world call
  let s2 : NetState W := ⟨r.2, s.log ++ [call]⟩
  match r.1 with
  | HttpResp.httpError code reason detail =>
      (Except.error (("HTTP ") ++ toString code ++ (" ") ++ reason ++ (": ") ++ detail), s2)
  | HttpResp.ok body => (Except.ok body, s2)

/-- The check `response.get("code") != 0` (negated): true exactly when the
decoded response carries an integer `code` field equal to `0`. -/
def codeIsZero (response : Json) : Bool :=
  match Json.get? response ("code") with
  | some (Json.num 0) => true
  | _ => false

/-- URL of the tenant token endpoint. -/
def tokenUrl (base_url : String) : String :=
  base_url ++ ("/open-apis/auth/v3/tenant_access_token/internal")

/-- Common URL stem of the Bitable table endpoints. -/
def tableStem (base_url app_token table_id : String) : String :=
  base_url ++ ("/open-apis/bitable/v1/apps/") ++ app_token ++ ("/tables/") ++ table_id

/-- URL of the record search endpoint. -/
def searchUrl (base_url app_token table_id : String) : String :=
  tableStem base_url app_token table_id ++ ("/records/search")

/-- URL of the record collection endpoint (record creation). -/
def recordsUrl (base_url app_token table_id : String) : String :=
  tableStem base_url app_token table_id ++ ("/records")

/-- URL of one record (record update). -/
def recordUrl (base_url app_token table_id record_id : String) : String :=
  recordsUrl base_url app_token table_id ++ ("/") ++ record_id

/-- The `_get_tenant_token` helper of issue_to_feishu.py.  A missing
`tenant_access_token` field in a `code = 0` response would raise `KeyError`
(the Feishu API contract always includes it); that uncaught exception is
the final error case. -/
def _get_tenant_token {W : Type} (h : W → NetCall → HttpResp × W)
    (base_url app_id app_secret : String) (s : NetState W) :
    Except String String × NetState W :=
  let r := _request_json h ("POST") (tokenUrl base_url) jsonHeaders
      (Json.obj [(("app_id"), Json.str app_id), (("app_secret"), Json.str app_secret)]) s
  match r.1 with
  | Except.error e => (Except.error e, r.2)
  | Except.ok response =>
    if codeIsZero response = false then
      (Except.error (("Failed to get tenant token: ") ++ jsonToString response), r.2)
    else
      match Json.get? response ("tenant_access_token") with
      | some (Json.str t) => (Except.ok t, r.2)
      | _ => (Except.error (("KeyError: tenant_access_token")), r.2)

/-- The search request body built by `_bitable_search`.  The script passes
`issue.get("id")` for `issue_id`, so the filter value is `str()` of that
JSON value. -/
def searchPayload (field_name : String) (issue_id : Json) : Json :=
  Json.obj
    [(("filter"), Json.obj
        [(("conjunction"), Json.str ("and")),
         (("conditions"), Json.arr
           [Json.obj
             [(("field_name"), Json.str field_name),
              (("operator"), Json.str ("is")),
              (("value"), Json.arr [Json.str (pyStr issue_id)])]])]),
     (("page_size"), Json.num 1)]

/-- Extraction of the found record id from a successful search response:
`response.get("data", {}).get("items", [])`, then `items[0].get("record_id")`
when the item list is non-empty, else `None`.  A missing or non-string
`record_id` in an item also yields `None`. -/
def searchRecordId (response : Json) : Option String :=
  match Json.getOr (Json.getOr response ("data") (Json.obj [])) ("items") (Json.arr []) with
  | Json.arr (first :: _) =>
    (match Json.get? first ("record_id") with
     | some (Json.str rid) => some rid
     | _ => none)
  | _ => none

/-- The `_bitable_search` helper of issue_to_feishu.py: search the table for
a record whose issue-id field matches, page size 1, and return the
`record_id` of the first item if any. -/
def _bitable_search {W : Type} (h : W → NetCall → HttpResp × W)
    (base_url token app_token table_id : String) (issue_id : Json) (field_name : String)
    (s : NetState W) : Except String (Option String) × NetState W :=
  let r := _request_json h ("POST") (searchUrl base_url app_token table_id)
      (authHeaders token) (searchPayload field_name issue_id) s
  match r.1 with
  | Except.error e => (Except.error e, r.2)
  | Except.ok response =>
    if codeIsZero response = false then
      (Except.error (("Failed to search bitable records: ") ++ jsonToString response), r.2)
    else (Except.ok (searchRecordId response), r.2)

/-- Method and URL chosen by `_bitable_upsert` from the search result:
`if record_id:` is Python truthiness, so a missing or empty-string id takes
the create branch (`POST` on the collection) and any other id the update
branch (`PUT` on the record URL). -/
def upsertMethodUrl (base_url app_token table_id : String) (record_id : Option String) :
    String × String :=
  match record_id with
  | some rid =>
    if rid = ("") then (("POST"), recordsUrl base_url app_token table_id)
    else (("PUT"), recordUrl base_url app_token table_id rid)
  | none => (("POST"), recordsUrl base_url app_token table_id)

/-- The `_bitable_upsert` helper of issue_to_feishu.py: search by issue id,
then `PUT` the found record or `POST` a new one, and fail fatally on a
non-zero response code. -/
def _bitable_upsert {W : Type} (h : W → NetCall → HttpResp × W)
    (base_url token app_token table_id : String) (issue_id : Json) (field_name : String)
    (fields : List (String × Json)) (s : NetState W) : Except String Unit × NetState W :=
  let r := _bitable_search h base_url token app_token table_id issue_id field_name s
  match r.1 with
  | Except.error e => (Except.error e, r.2)
  | Except.ok record_id =>
    let methodUrl := upsertMethodUrl base_url app_token table_id record_id
    let r2 := _request_json h methodUrl.1 methodUrl.2 (authHeaders token)
        (Json.obj [(("fields"), Json.obj fields)]) r.2
    match r2.1 with
    | Except.error e => (Except.error e, r2.2)
    | Except.ok response =>
      if codeIsZero response = false then
        (Except.error (("Failed to upsert bitable record: ") ++ jsonToString response), r2.2)
      else (Except.ok (), r2.2)

/-- The `_bitable_create` helper of issue_to_feishu.py: unconditionally
`POST` a new record. -/
def _bitable_create {W : Type} (h : W → NetCall → HttpResp × W)
    (base_url token app_token table_id : String) (fields : List (String × Json))
    (s : NetState W) : Except String Unit × NetState W :=
  let r := _request_json h ("POST") (recordsUrl base_url app_token table_id)
      (authHeaders token) (Json.obj [(("fields"), Json.obj fields)]) s
  match r.1 with
  | Except.error e => (Except.error e, r.2)
  | Except.ok response =>
    if codeIsZero response = false then
      (Except.error (("Failed to create bitable record: ") ++ jsonToString response), r.2)
    else (Except.ok (), r.2)

end HIC.Feishu

namespace HIC.Feishu

open HIC HIC.Ts

/-- One record of the remote Bitable table: the service-assigned record id
and the field mapping. -/
structure BitRecord where
  recordId : String
  fields : List (String × Json)

/-- Modelled from the spec: the state of the remote Bitable table (the
Feishu service is external to the repository).  `nextId` feeds the
service-assigned record ids. -/
structure Bitable where
  records : List BitRecord
  nextId : Nat

/-- Service-assigned record id for the `n`-th created record. -/
def mkRecordId (n : Nat) : String := ("rec") ++ Nat.repr n

/-- Exact match of a record's text field against the search value, the
"is" operator of the search filter. -/
def fieldMatches (key target : String) (r : BitRecord) : Bool :=
  match Json.lookup r.fields key with
  | some (Json.str s) => s = target
  | _ => false

/-- Number of records of the table whose field `key` matches `target`. -/
def countMatching (bt : Bitable) (key target : String) : Nat :=
  (bt.records.filter (fieldMatches key target)).length

/-- Field name and match value carried by a search request body. -/
def payloadFilterField (p : Json) : Option (String × String) :=
  match Json.get? p ("filter") with
  | none => none
  | some f =>
    match Json.get? f ("conditions") with
    | some (Json.arr (c :: _)) =>
      match Json.get? c ("field_name"), Json.get? c ("value") with
      | some (Json.str fn), some (Json.arr (Json.str v :: _)) => some (fn, v)
      | _, _ => none
    | _ => none

/-- Field mapping carried by a create or update request body. -/
def payloadFields (p : Json) : Option (List (String × Json)) :=
  match Json.get? p ("fields") with
  | some (Json.obj kvs) => some kvs
  | _ => none

/-- The item list a search reports: the first record whose field matches,
if any (page size 1). -/
def searchItems (bt : Bitable) (fkey target : String) : List Json :=
  match bt.records.filter (fieldMatches fkey target) with
  | [] => []
  | r :: _ =>
    [Json.obj [(("record_id"), Json.str r.recordId), (("fields"), Json.obj r.fields)]]

/-- A `code = 0` JSON response with extra payload. -/
def okResp (extra : List (String × Json)) : HttpResp :=
  HttpResp.ok (Json.obj ((("code"), Json.num 0) :: extra))

/-- A non-zero-`code` JSON response, the service's rejection of a request it
cannot process. -/
def errResp : HttpResp :=
  HttpResp.ok (Json.obj [(("code"), Json.num 1), (("msg"), Json.str ("bad request"))])

/-- Modelled from the spec: the Feishu service (external to the repository)
routed on the exact URLs the client builds.  The token endpoint returns a
fixed bearer token; search reports the first record whose issue-id field
matches the filter, exactly (page size 1); create appends a record under a
fresh service-assigned id; update (`PUT` on a record URL) replaces the
fields of the record whose id the URL names. -/
def serverHandle (base_url app_token table_id tok : String) (bt : Bitable) (c : NetCall) :
    HttpResp × Bitable :=
  if c.method = ("POST") ∧ c.url = tokenUrl base_url then
    (okResp [(("tenant_access_token"), Json.str tok)], bt)
  else if c.method = ("POST") ∧ c.url = searchUrl base_url app_token table_id then
    match payloadFilterField c.payload with
    | none => (errResp, bt)
    | some fv =>
      (okResp [(("data"), Json.obj [(("items"), Json.arr (searchItems bt fv.1 fv.2))])], bt)
  else if c.method = ("POST") ∧ c.url = recordsUrl base_url app_token table_id then
    match payloadFields c.payload with
    | none => (errResp, bt)
    | some flds =>
      (okResp [], ⟨bt.records ++ [⟨mkRecordId bt.nextId, flds⟩], bt.nextId + 1⟩)
  else if c.method = ("PUT") then
    match bt.records.find? (fun r => recordUrl base_url app_token table_id r.recordId == c.url) with
    | none => (errResp, bt)
    | some r0 =>
      match payloadFields c.payload with
      | none => (errResp, bt)
      | some flds =>
        (okResp [],
         ⟨bt.records.map (fun r => if r.recordId == r0.recordId then ⟨r.recordId, flds⟩ else r),
          bt.nextId⟩)
  else (HttpResp.httpError 404 ("Not Found") (("no route")), bt)

/-- Configuration and derived data `main` has computed by the time it makes
its first network call (lines 157-194 of issue_to_feishu.py). -/
structure Args where
  base_url : String
  app_id : String
  app_secret : String
  app_token : String
  table_id : String
  upsert : Bool
  issue_id_field : String
  issue_id : Json
  fields : List (String × Json)

/-- Labels or assignees field value:
`", ".join(names) if names else None`. -/
def joinedField (names : List Json) : Json :=
  if names.isEmpty then Json.null
  else Json.str (String.intercalate (", ") (names.map pyStr))

/-- Rendering of an optional isoformat timestamp as a field value. -/
def tsField (t : Option String) : Json :=
  match t with
  | some v => Json.str v
  | none => Json.null

/-- The `fields` dict literal of `main` (issue_to_feishu.py lines 180-194),
given the already-computed pieces.  The association list models the dict;
`Json.lookup` agrees with Python's dict lookup because the keys are
pairwise distinct whenever `issue_id_field` differs from the twelve fixed
column names (the default `"Issue ID"` does). -/
def recordFields (issue_id_field : String) (issue action : Json)
    (created_at updated_at closed_at : Option String) (body : Json) :
    List (String × Json) :=
  [(issue_id_field, Json.str (pyStr (Json.getOr issue ("id") Json.null))),
   (("Issue Number"), Json.getOr issue ("number") Json.null),
   (("Title"), Json.getOr issue ("title") Json.null),
   (("State"), Json.getOr issue ("state") Json.null),
   (("URL"), Json.getOr issue ("html_url") Json.null),
   (("User"), Json.getOr (Json.getOr issue ("user") (Json.obj [])) ("login") Json.null),
   (("Labels"), joinedField (extractNames (Json.asArr (Json.getOr issue ("labels") (Json.arr []))) ("name"))),
   (("Assignees"), joinedField (extractNames (Json.asArr (Json.getOr issue ("assignees") (Json.arr []))) ("login"))),
   (("Action"), action),
   (("Created At"), tsField created_at),
   (("Updated At"), tsField updated_at),
   (("Closed At"), tsField closed_at),
   (("Body"), body)]

/-- The pure prefix of `main` (issue_to_feishu.py lines 157-194): read the
configuration from the environment, load and validate the event file, and
build the record fields.  Any failure here terminates the process before
the first network call.  `file` is the filesystem oracle: the parsed
mapping stored at a path, or `none` when the file is missing or
unparsable. -/
def prep (localOffMin : Int) (env : Env) (file : String → Option (List (String × Json))) :
    Except String Args :=
  match _env env ("GITHUB_EVENT_PATH") none with
  | Except.error e => Except.error e
  | Except.ok event_path =>
  let base_url :=
    match env ("FEISHU_BASE_URL") with
    | some v => if v = ("") then ("https://open.feishu.cn") else v
    | none => ("https://open.feishu.cn")
  match _env env ("FEISHU_APP_ID") none with
  | Except.error e => Except.error e
  | Except.ok app_id =>
  match _env env ("FEISHU_APP_SECRET") none with
  | Except.error e => Except.error e
  | Except.ok app_secret =>
  match _env env ("FEISHU_APP_TOKEN") none with
  | Except.error e => Except.error e
  | Except.ok app_token =>
  match _env env ("FEISHU_TABLE_ID") none with
  | Except.error e => Except.error e
  | Except.ok table_id =>
  let upsert := (osGetenv env ("FEISHU_UPSERT") (some ("1"))) == some ("1")
  let issue_id_field := (osGetenv env ("FEISHU_FIELD_ISSUE_ID") (some ("Issue ID"))).getD ("Issue ID")
  match file event_path with
  | none => Except.error (("Failed to load event file: ") ++ event_path)
  | some event =>
  match Json.lookup event ("issue") with
  | none => Except.error (("Event payload missing \x27issue\x27"))
  | some issue =>
  let action := (Json.lookup event ("action")).getD (Json.str ("unknown"))
  match parseTsJson localOffMin (Json.get? issue ("created_at")) with
  | Except.error e => Except.error e
  | Except.ok created_at =>
  match parseTsJson localOffMin (Json.get? issue ("updated_at")) with
  | Except.error e => Except.error e
  | Except.ok updated_at =>
  match parseTsJson localOffMin (Json.get? issue ("closed_at")) with
  | Except.error e => Except.error e
  | Except.ok closed_at =>
  match truncateJson (Json.getOr issue ("body") Json.null) 5000 with
  | Except.error e => Except.error e
  | Except.ok body =>
  Except.ok
    { base_url := base_url
      app_id := app_id
      app_secret := app_secret
      app_token := app_token
      table_id := table_id
      upsert := upsert
      issue_id_field := issue_id_field
      issue_id := Json.getOr issue ("id") Json.null
      fields := recordFields issue_id_field issue action created_at updated_at closed_at body }

/-- The token request `main` issues first. -/
def tokenCall (a : Args) : NetCall :=
  ⟨("POST"), tokenUrl a.base_url, jsonHeaders,
   Json.obj [(("app_id"), Json.str a.app_id), (("app_secret"), Json.str a.app_secret)]⟩

/-- The search request the upsert path issues second. -/
def searchCall (a : Args) (token : String) : NetCall :=
  ⟨("POST"), searchUrl a.base_url a.app_token a.table_id, authHeaders token,
   searchPayload a.issue_id_field a.issue_id⟩

/-- A record write request (create or update). -/
def writeCall (method url token : String) (fields : List (String × Json)) : NetCall :=
  ⟨method, url, authHeaders token, Json.obj [(("fields"), Json.obj fields)]⟩

/-- The network phase of `main` (issue_to_feishu.py lines 196-202): obtain
the tenant token, then upsert or create according to the flag. -/
def netPhase {W : Type} (h : W → NetCall → HttpResp × W) (a : Args) (s : NetState W) :
    Except String Unit × NetState W :=
  let r := _get_tenant_token h a.base_url a.app_id a.app_secret s
  match r.1 with
  | Except.error e => (Except.error e, r.2)
  | Except.ok token =>
    if a.upsert then
      _bitable_upsert h a.base_url token a.app_token a.table_id a.issue_id a.issue_id_field
        a.fields r.2
    else
      _bitable_create h a.base_url token a.app_token a.table_id a.fields r.2

/-- The whole of `main` in issue_to_feishu.py. -/
def main {W : Type} (localOffMin : Int) (h : W → NetCall → HttpResp × W) (env : Env)
    (file : String → Option (List (String × Json))) (s : NetState W) :
    Except String Unit × NetState W :=
  match prep localOffMin env file with
  | Except.error e => (Except.error e, s)
  | Except.ok a => netPhase h a s

/-- The environment variables issue_to_feishu.py requires (read through
`_env` with no default). -/
def requiredVars : List String :=
  [("GITHUB_EVENT_PATH"), ("FEISHU_APP_ID"), ("FEISHU_APP_SECRET"),
   ("FEISHU_APP_TOKEN"), ("FEISHU_TABLE_ID")]

end HIC.Feishu

namespace HIC.Mysql

open HIC HIC.Ts

/-- The `_env` helper of issue_to_mysql.py (identical to the Feishu one):
`os.getenv(name, default)`, fatal when the result is `None` or the empty
string. -/
def _env (env : Env) (name : String) (default : Option String) : Except String String :=
  match osGetenv env name default with
  | none => Except.error (("Missing required env var: ") ++ name)
  | some value =>
    if value = ("") then Except.error (("Missing required env var: ") ++ name)
    else Except.ok value

/-- The `_parse_github_timestamp` helper of issue_to_mysql.py.  Same parse
as the Feishu variant, but the result is the aware UTC `datetime` itself,
modelled as the instant it denotes in seconds since the Unix epoch. -/
def _parse_github_timestamp (localOffMin : Int) (value : Option String) :
    Except String (Option Int) :=
  match value with
  | none => Except.ok none
  | some v =>
    if v = ("") then Except.ok none
    else
      match fromisoformat (replaceZ v) with
      | none => Except.error (("Invalid isoformat string: ") ++ v)
      | some c => Except.ok (some (astimezoneUtcSeconds c localOffMin))

/-- Adapter applying `_parse_github_timestamp` to the raw JSON value of
`issue.get(...)`, as in the Feishu variant. -/
def parseTsJson (localOffMin : Int) (v : Option Json) : Except String (Option Int) :=
  match v with
  | none => Except.ok none
  | some j =>
    if Json.truthy j = false then Except.ok none
    else
      match j with
      | Json.str s => _parse_github_timestamp localOffMin (some s)
      | _ => Except.error (("AttributeError: replace"))

/-- A value bound to a statement parameter and stored in a column: `NULL`,
an integer, a string, or an aware UTC datetime (modelled as the instant in
seconds since the Unix epoch).  Python booleans are stored as 0/1 by the
connector. -/
inductive SqlVal where
  | null : SqlVal
  | int (n : Int) : SqlVal
  | str (s : String) : SqlVal
  | ts (t : Int) : SqlVal
deriving DecidableEq

/-- Conversion of a decoded JSON scalar to a statement parameter.  The
connector would reject a raw list or dict parameter; the scripts only pass
scalars there for well-formed payloads, and the model folds the rejected
case to its JSON rendering. -/
def sqlOfJson : Json → SqlVal
  | Json.null => SqlVal.null
  | Json.bool b => SqlVal.int (if b then 1 else 0)
  | Json.num n => SqlVal.int n
  | Json.str s => SqlVal.str s
  | Json.arr xs => SqlVal.str (jsonDumps (Json.arr xs))
  | Json.obj kvs => SqlVal.str (jsonDumps (Json.obj kvs))

/-- The non-key column values named in the `INSERT` column list of
issue_to_mysql.py (every column except `id` and the defaulted
`event_received_at`). -/
structure RowVals where
  number : SqlVal
  title : SqlVal
  body : SqlVal
  state : SqlVal
  created_at : SqlVal
  updated_at : SqlVal
  closed_at : SqlVal
  url : SqlVal
  user_login : SqlVal
  labels : SqlVal
  assignees : SqlVal
  event_action : SqlVal
  payload : SqlVal
deriving DecidableEq

/-- One stored row of `github_issues` (minus the key, which the table model
carries alongside). -/
structure IssueRow where
  number : SqlVal
  title : SqlVal
  body : SqlVal
  state : SqlVal
  created_at : SqlVal
  updated_at : SqlVal
  closed_at : SqlVal
  url : SqlVal
  user_login : SqlVal
  labels : SqlVal
  assignees : SqlVal
  event_action : SqlVal
  payload : SqlVal
  event_received_at : Int
deriving DecidableEq

/-- The `github_issues` table, keyed by the `id` primary key. -/
abbrev Table := List (SqlVal × IssueRow)

/-- Row produced by the `INSERT` branch: the listed columns from the
parameters, `event_received_at` from its `DEFAULT CURRENT_TIMESTAMP`. -/
def insertRow (v : RowVals) (now : Int) : IssueRow :=
  ⟨v.number, v.title, v.body, v.state, v.created_at, v.updated_at, v.closed_at,
   v.url, v.user_login, v.labels, v.assignees, v.event_action, v.payload, now⟩

/-- Row produced by the `ON DUPLICATE KEY UPDATE` branch: every listed
column set to `VALUES(col)` and `event_received_at = CURRENT_TIMESTAMP`
(the clause lists every non-key column, so nothing of the old row
survives). -/
def updateRow (_old : IssueRow) (v : RowVals) (now : Int) : IssueRow :=
  ⟨v.number, v.title, v.body, v.state, v.created_at, v.updated_at, v.closed_at,
   v.url, v.user_login, v.labels, v.assignees, v.event_action, v.payload, now⟩

/-- Modelled from the spec: MySQL's execution of the single
`INSERT ... ON DUPLICATE KEY UPDATE` statement of issue_to_mysql.py (the
MySQL server is external to the repository).  A `NULL` primary key is a
statement error; a conflicting key updates the existing row; otherwise a
new row is appended.  `now` is the server's `CURRENT_TIMESTAMP`. -/
def upsertStmt (table : Table) (id : SqlVal) (v : RowVals) (now : Int) :
    Except String Table :=
  if id = SqlVal.null then Except.error (("Column \x27id\x27 cannot be null"))
  else if (table.find? (fun kv => kv.1 == id)).isSome then
    Except.ok (table.map (fun kv => if kv.1 == id then (kv.1, updateRow kv.2 v now) else kv))
  else Except.ok (table ++ [(id, insertRow v now)])

/-- Python's `int()` on the decimal string taken from `MYSQL_PORT`
(whitespace, underscores and an explicit `+` sign are not used by any
value the scripts see and are not modelled). -/
def pyInt (s : String) : Except String Int :=
  match s.data with
  | [] => Except.error (("invalid literal for int: ") ++ s)
  | ('-') :: rest =>
    if rest ≠ [] ∧ rest.all Char.isDigit then
      Except.ok (-(((rest.foldl (fun a c => a * 10 + (c.toNat - 48)) 0 : Nat)) : Int))
    else Except.error (("invalid literal for int: ") ++ s)
  | cs =>
    if cs.all Char.isDigit then
      Except.ok (((cs.foldl (fun a c => a * 10 + (c.toNat - 48)) 0 : Nat)) : Int)
    else Except.error (("invalid literal for int: ") ++ s)

/-- The external database world: whether connect, the DDL execute and the
DML execute succeed for environmental reasons, the stored table, and the
server clock. -/
structure DbWorld where
  connectOk : Bool
  schemaOk : Bool
  execOk : Bool
  table : Table
  now : Int

/-- Outcome of a run of the MySQL sink: its process result, the table the
server durably holds afterwards (statement effects are discarded unless
committed), whether `commit` ran, whether a connection remains open, and
the ordered trace of database operations. -/
structure DbOutcome where
  result : Except String Unit
  table : Table
  committed : Bool
  connOpen : Bool
  trace : List String

/-- The pure prefix of `main` (issue_to_mysql.py lines 68-90): read the
event path, load and validate the event file, and compute the statement
parameters.  Any failure here terminates the process before the database
connection is opened. -/
def prep (localOffMin : Int) (env : Env) (file : String → Option (List (String × Json))) :
    Except String (SqlVal × RowVals) :=
  match _env env ("GITHUB_EVENT_PATH") none with
  | Except.error e => Except.error e
  | Except.ok event_path =>
  match file event_path with
  | none => Except.error (("Failed to load event file: ") ++ event_path)
  | some event =>
  match Json.lookup event ("issue") with
  | none => Except.error (("Event payload missing \x27issue\x27"))
  | some issue =>
  let action := (Json.lookup event ("action")).getD (Json.str ("unknown"))
  let labels := extractNames (Json.asArr (Json.getOr issue ("labels") (Json.arr []))) ("name")
  let assignees :=
    extractNames (Json.asArr (Json.getOr issue ("assignees") (Json.arr []))) ("login")
  let payload_json := jsonDumps (Json.obj event)
  let labels_json := jsonDumps (Json.arr labels)
  let assignees_json := jsonDumps (Json.arr assignees)
  match parseTsJson localOffMin (Json.get? issue ("created_at")) with
  | Except.error e => Except.error e
  | Except.ok created_at =>
  match parseTsJson localOffMin (Json.get? issue ("updated_at")) with
  | Except.error e => Except.error e
  | Except.ok updated_at =>
  match parseTsJson localOffMin (Json.get? issue ("closed_at")) with
  | Except.error e => Except.error e
  | Except.ok closed_at =>
  let tsVal : Option Int → SqlVal := fun t =>
    match t with
    | some x => SqlVal.ts x
    | none => SqlVal.null
  Except.ok
    (sqlOfJson (Json.getOr issue ("id") Json.null),
     { number := sqlOfJson (Json.getOr issue ("number") Json.null)
       title := sqlOfJson (Json.getOr issue ("title") Json.null)
       body := sqlOfJson (Json.getOr issue ("body") Json.null)
       state := sqlOfJson (Json.getOr issue ("state") Json.null)
       created_at := tsVal created_at
       updated_at := tsVal updated_at
       closed_at := tsVal closed_at
       url := sqlOfJson (Json.getOr issue ("html_url") Json.null)
       user_login :=
         sqlOfJson (Json.getOr (Json.getOr issue ("user") (Json.obj [])) ("login") Json.null)
       labels := SqlVal.str labels_json
       assignees := SqlVal.str assignees_json
       event_action := sqlOfJson action
       payload := SqlVal.str payload_json })

/-- The database phase of `main` (issue_to_mysql.py lines 92-165):
`_connect_mysql` evaluates its `_env` arguments (host, port, user,
password, database, in that order) before any connection is attempted;
then the `try` block creates the schema, executes the upsert and commits,
and the `finally` block always closes an opened connection.  An exception
anywhere inside the `try` block skips `commit`, so the statement effects
are discarded (implicit rollback) and the stored table is unchanged. -/
def dbPhase (env : Env) (id : SqlVal) (v : RowVals) (w : DbWorld) : DbOutcome :=
  match _env env ("MYSQL_HOST") none with
  | Except.error e => ⟨Except.error e, w.table, false, false, []⟩
  | Except.ok _host =>
  match pyInt ((osGetenv env ("MYSQL_PORT") (some ("3306"))).getD ("3306")) with
  | Except.error e => ⟨Except.error e, w.table, false, false, []⟩
  | Except.ok _port =>
  match _env env ("MYSQL_USER") none with
  | Except.error e => ⟨Except.error e, w.table, false, false, []⟩
  | Except.ok _user =>
  match _env env ("MYSQL_PASSWORD") none with
  | Except.error e => ⟨Except.error e, w.table, false, false, []⟩
  | Except.ok _password =>
  match _env env ("MYSQL_DATABASE") none with
  | Except.error e => ⟨Except.error e, w.table, false, false, []⟩
  | Except.ok _database =>
  if w.connectOk = false then
    ⟨Except.error (("mysql.connector.Error: cannot connect")), w.table, false, false,
     [("connect:fail")]⟩
  else if w.schemaOk = false then
    ⟨Except.error (("mysql.connector.Error: CREATE TABLE failed")), w.table, false, false,
     [("connect:ok"), ("execute:schema:fail"), ("close")]⟩
  else if w.execOk = false then
    ⟨Except.error (("mysql.connector.Error: INSERT failed")), w.table, false, false,
     [("connect:ok"), ("execute:schema:ok"), ("execute:upsert:fail"), ("close")]⟩
  else
    match upsertStmt w.table id v w.now with
    | Except.error e =>
      ⟨Except.error e, w.table, false, false,
       [("connect:ok"), ("execute:schema:ok"), ("execute:upsert:fail"), ("close")]⟩
    | Except.ok t2 =>
      ⟨Except.ok (), t2, true, false,
       [("connect:ok"), ("execute:schema:ok"), ("execute:upsert:ok"), ("commit"), ("close")]⟩

/-- The whole of `main` in issue_to_mysql.py. -/
def main (localOffMin : Int) (env : Env) (file : String → Option (List (String × Json)))
    (w : DbWorld) : DbOutcome :=
  match prep localOffMin env file with
  | Except.error e => ⟨Except.error e, w.table, false, false, []⟩
  | Except.ok args => dbPhase env args.1 args.2 w

/-- The environment variables issue_to_mysql.py requires (read through
`_env` with no default). -/
def requiredVars : List String :=
  [("GITHUB_EVENT_PATH"), ("MYSQL_HOST"), ("MYSQL_USER"), ("MYSQL_PASSWORD"),
   ("MYSQL_DATABASE")]

end HIC.Mysql

namespace HIC

open HIC.Ts

/-- Strings with equal character data are equal. -/
theorem string_eq_of_data (a b : String) (h : a.data = b.data) : a = b := by
  cases a
  cases b
  exact congrArg String.mk h

/-- Left cancellation of string concatenation. -/
theorem string_append_cancel_left (p a b : String) (h : p ++ a = p ++ b) : a = b := by
  have hd : (p ++ a).data = (p ++ b).data := by rw [h]
  rw [String.data_append, String.data_append] at hd
  exact string_eq_of_data a b (List.append_cancel_left hd)

/-- Service-assigned record ids are never the empty string. -/
theorem mkRecordId_ne_empty (n : Nat) : Feishu.mkRecordId n ≠ ("") := by
  intro h
  have hd := congrArg String.data h
  simp only [Feishu.mkRecordId, String.data_append] at hd
  simp at hd

/-- The record URL determines the record id. -/
theorem recordUrl_inj (b a t r1 r2 : String)
    (h : Feishu.recordUrl b a t r1 = Feishu.recordUrl b a t r2) : r1 = r2 := by
  simp only [Feishu.recordUrl] at h
  exact string_append_cancel_left _ _ _ h

/-- The search endpoint is distinct from the token endpoint. -/
theorem searchUrl_ne_tokenUrl (b a t : String) :
    Feishu.searchUrl b a t ≠ Feishu.tokenUrl b := by
  intro h
  have hd := congrArg String.data h
  simp only [Feishu.searchUrl, Feishu.tableStem, Feishu.tokenUrl, String.data_append,
    List.append_assoc] at hd
  have hc := List.append_cancel_left hd
  have ht := congrArg (List.take 12) hc
  rw [List.take_append_of_le_length (by decide)] at ht
  exact absurd ht (by decide)

/-- The record collection endpoint is distinct from the token endpoint. -/
theorem recordsUrl_ne_tokenUrl (b a t : String) :
    Feishu.recordsUrl b a t ≠ Feishu.tokenUrl b := by
  intro h
  have hd := congrArg String.data h
  simp only [Feishu.recordsUrl, Feishu.tableStem, Feishu.tokenUrl, String.data_append,
    List.append_assoc] at hd
  have hc := List.append_cancel_left hd
  have ht := congrArg (List.take 12) hc
  rw [List.take_append_of_le_length (by decide)] at ht
  exact absurd ht (by decide)

/-- The record collection endpoint is distinct from the search endpoint. -/
theorem recordsUrl_ne_searchUrl (b a t : String) :
    Feishu.recordsUrl b a t ≠ Feishu.searchUrl b a t := by
  intro h
  simp only [Feishu.recordsUrl, Feishu.searchUrl] at h
  have h2 := string_append_cancel_left _ _ _ h
  exact absurd h2 (by decide)

/-- A list with an empty filtrate contains no satisfying element, so
`find?` fails. -/
theorem find?_eq_none_of_filter_nil {α : Type} (l : List α) (p : α → Bool)
    (h : l.filter p = []) : l.find? p = none := by
  rw [List.find?_eq_none]
  intro x hx
  have h2 := List.filter_eq_nil_iff.mp h x hx
  simpa using h2

/-- Mapping a function that fixes every member is the identity. -/
theorem map_id_of_mem {α : Type} (l : List α) (f : α → α) (h : ∀ x ∈ l, f x = x) :
    l.map f = l := by
  induction l with
  | nil => rfl
  | cons a as ih =>
    rw [List.map_cons, h a (List.mem_cons_self a as),
      ih (fun x hx => h x (List.mem_cons_of_mem a hx))]

/-- The two scripts' `_env` helpers are the same function. -/
theorem mysql_env_eq_feishu (env : Env) (name : String) (d : Option String) :
    Mysql._env env name d = Feishu._env env name d := rfl

/-- A successful required lookup means the variable is set and non-empty. -/
theorem feishu_env_ok {env : Env} {name v : String} {d : Option String}
    (h : Feishu._env env name d = Except.ok v) :
    osGetenv env name d = some v ∧ v ≠ ("") := by
  unfold Feishu._env at h
  split at h
  · exact Except.noConfusion h
  next value hv =>
    split at h
    · exact Except.noConfusion h
    next hne =>
      cases h
      exact ⟨hv, hne⟩

/-- A required lookup with no default fails on an absent or empty
variable. -/
theorem feishu_env_missing {env : Env} {name : String}
    (h : env name = none ∨ env name = some ("")) :
    Feishu._env env name none = Except.error (("Missing required env var: ") ++ name) := by
  unfold Feishu._env osGetenv
  cases h with
  | inl h2 => rw [h2]
  | inr h2 =>
    rw [h2]
    simp

end HIC

namespace HIC

open HIC.Ts

/-- C3: for every string body longer than the Feishu sink's limit of 5000
characters, `_truncate` returns a string of length exactly 5000 whose last
three characters are the ellipsis marker `"..."` and whose first 4997
characters are the corresponding prefix of the input; a body of length at
most the limit is returned unchanged, and a null body stays null. -/
theorem c3_truncate_spec (v : String) (hv : 5000 < v.length) :
    Feishu._truncate (some v) 5000 = some (v.take 4997 ++ ("...")) ∧
    (v.take 4997 ++ ("...")).length = 5000 ∧
    (v.take 4997 ++ ("...")).data.drop 4997 = [('.'), ('.'), ('.')] ∧
    (v.take 4997 ++ ("...")).data.take 4997 = v.data.take 4997 ∧
    (∀ u : String, u.length ≤ 5000 → Feishu._truncate (some u) 5000 = some u) ∧
    Feishu._truncate none 5000 = none := by
  have hv2 : 5000 < v.data.length := hv
  have hdata : (v.take 4997).data = v.data.take 4997 := String.data_take v 4997
  have hlen : (v.take 4997).length = 4997 := by
    rw [String.take_eq]
    show (v.data.take 4997).length = 4997
    rw [List.length_take]
    omega
  have hlen2 : (v.data.take 4997).length = 4997 := by
    rw [List.length_take]
    omega
  have happ : (v.take 4997 ++ ("...")).data = v.data.take 4997 ++ [('.'), ('.'), ('.')] := by
    rw [String.data_append, hdata]
  have hdots : ((("...") : String)).length = 3 := rfl
  refine ⟨?_, ?_, ?_, ?_, ?_, rfl⟩
  · show (if v.length ≤ 5000 then some v else some (v.take (5000 - 3) ++ ("..."))) =
      some (v.take 4997 ++ ("..."))
    rw [if_neg (by omega)]
  · rw [String.length_append, hlen, hdots]
  · rw [happ]
    nth_rewrite 1 [← hlen2]
    rw [List.drop_left]
  · rw [happ]
    nth_rewrite 1 [← hlen2]
    rw [List.take_left]
  · intro u hu
    show (if u.length ≤ 5000 then some u else some (u.take (5000 - 3) ++ ("..."))) = some u
    rw [if_pos hu]

/-- Witness for `c3_truncate_spec` at a concrete 5001-character body. -/
theorem c3_truncate_spec_witness :
    5000 < (String.mk (List.replicate 5001 ('a'))).length ∧
    Feishu._truncate (some (String.mk (List.replicate 5001 ('a')))) 5000 =
      some ((String.mk (List.replicate 5001 ('a'))).take 4997 ++ ("...")) := by
  have h : 5000 < (String.mk (List.replicate 5001 ('a'))).length := by
    show 5000 < (List.replicate 5001 ('a')).length
    rw [List.length_replicate]
    omega
  exact ⟨h, (c3_truncate_spec _ h).1⟩

/-- C9 (amended): a missing, null or empty timestamp yields null in both
scripts; every string whose `Z`-for-`+00:00` replacement parses as an
ISO-8601 datetime at UTC offset zero (in particular every well-formed
`Z`-suffixed GitHub timestamp) yields the instant it denotes normalized to
UTC — as that instant for the MySQL sink, rendered back with `isoformat()`
for the Feishu sink; and every non-empty malformed string is a fatal parse
error in both scripts. -/
theorem c9_timestamp_parse (lo : Int) :
    (Mysql._parse_github_timestamp lo none = Except.ok none) ∧
    (Feishu._parse_github_timestamp lo none = Except.ok none) ∧
    (Mysql._parse_github_timestamp lo (some ("")) = Except.ok none) ∧
    (Feishu._parse_github_timestamp lo (some ("")) = Except.ok none) ∧
    (∀ (s : String) (c : CivilDT), fromisoformat (replaceZ s) = some c →
      c.offsetMin = some 0 →
      Mysql._parse_github_timestamp lo (some s) =
        Except.ok (some (civilToEpochSeconds c 0)) ∧
      Feishu._parse_github_timestamp lo (some s) =
        Except.ok (some (isoformatUtc (civilToEpochSeconds c 0)))) ∧
    (∀ s : String, s ≠ ("") → fromisoformat (replaceZ s) = none →
      Mysql._parse_github_timestamp lo (some s) =
        Except.error (("Invalid isoformat string: ") ++ s) ∧
      Feishu._parse_github_timestamp lo (some s) =
        Except.error (("Invalid isoformat string: ") ++ s)) := by
  refine ⟨rfl, rfl, rfl, rfl, ?_, ?_⟩
  · intro s c hparse hoff
    have hs : s ≠ ("") := by
      intro he
      rw [he] at hparse
      exact Option.noConfusion ((rfl : fromisoformat (replaceZ ("")) = none) ▸ hparse)
    constructor
    · simp only [Mysql._parse_github_timestamp]
      rw [if_neg hs, hparse]
      simp only [astimezoneUtcSeconds, hoff]
    · simp only [Feishu._parse_github_timestamp]
      rw [if_neg hs, hparse]
      simp only [astimezoneUtcSeconds, hoff]
  · intro s hs hparse
    constructor
    · simp only [Mysql._parse_github_timestamp]
      rw [if_neg hs, hparse]
    · simp only [Feishu._parse_github_timestamp]
      rw [if_neg hs, hparse]

/-- Witness for `c9_timestamp_parse` at a concrete GitHub timestamp. -/
theorem c9_timestamp_parse_witness :
    fromisoformat (replaceZ ("2024-01-15T10:30:00Z")) =
      some (⟨2024, 1, 15, 10, 30, 0, some 0⟩ : CivilDT) ∧
    Mysql._parse_github_timestamp 0 (some ("2024-01-15T10:30:00Z")) =
      Except.ok (some (civilToEpochSeconds ⟨2024, 1, 15, 10, 30, 0, some 0⟩ 0)) := by
  have h : fromisoformat (replaceZ ("2024-01-15T10:30:00Z")) =
      some (⟨2024, 1, 15, 10, 30, 0, some 0⟩ : CivilDT) := by decide
  exact ⟨h, (((c9_timestamp_parse 0).2.2.2.2.1) _ _ h rfl).1⟩

/-- C9 counterexample: the empty string is not a parsable ISO-8601
timestamp, yet both `_parse_github_timestamp` helpers return a value
(`None`) for it instead of failing with a parse error — the `if not value`
guard folds the empty string into the missing case. -/
theorem c9_empty_string_counterexample :
    Mysql._parse_github_timestamp 0 (some ("")) = Except.ok none ∧
    Feishu._parse_github_timestamp 0 (some ("")) = Except.ok none ∧
    fromisoformat (replaceZ ("")) = none ∧
    fromisoformat (("")) = none := ⟨rfl, rfl, rfl, rfl⟩

/-- C10: both scripts treat an environment variable that is set to the
empty string exactly like an absent one — the required lookup fails with
the same "Missing required env var" message either way, so an empty-string
value can never reach the sinks; moreover the two scripts' `_env` helpers
are one and the same function. -/
theorem c10_env_empty_like_absent (env : Env) (name : String)
    (h : env name = some ("")) :
    Feishu._env env name none = Except.error (("Missing required env var: ") ++ name) ∧
    Mysql._env env name none = Except.error (("Missing required env var: ") ++ name) ∧
    (∀ env2 : Env, env2 name = none →
      Feishu._env env name none = Feishu._env env2 name none ∧
      Mysql._env env name none = Mysql._env env2 name none) ∧
    (∀ (e2 : Env) (n2 : String) (d2 : Option String),
      Mysql._env e2 n2 d2 = Feishu._env e2 n2 d2) := by
  have hf := feishu_env_missing (Or.inr h)
  refine ⟨hf, ?_, ?_, fun e2 n2 d2 => rfl⟩
  · rw [mysql_env_eq_feishu]
    exact hf
  · intro env2 h2
    have hf2 := feishu_env_missing (Or.inl h2)
    rw [hf, hf2, mysql_env_eq_feishu, mysql_env_eq_feishu, hf, hf2]
    exact ⟨rfl, rfl⟩

/-- Witness for `c10_env_empty_like_absent` at a concrete environment. -/
theorem c10_env_empty_like_absent_witness :
    ((fun n => if n = ("MYSQL_HOST") then some ("") else none : Env) ("MYSQL_HOST")) =
      some ("") ∧
    Feishu._env (fun n => if n = ("MYSQL_HOST") then some ("") else none) ("MYSQL_HOST") none =
      Except.error (("Missing required env var: ") ++ ("MYSQL_HOST")) := by
  exact ⟨rfl,
    (c10_env_empty_like_absent (fun n => if n = ("MYSQL_HOST") then some ("") else none)
      (("MYSQL_HOST")) rfl).1⟩

end HIC


namespace HIC

open HIC.Ts

/-- The method strings of the write requests differ. -/
theorem put_ne_post : (("PUT") : String) ≠ ("POST") := by decide

/-- A response whose first field is the integer code 0 passes the client's
code check. -/
theorem codeIsZero_zero (l : List (String × Json)) :
    Feishu.codeIsZero (Json.obj ((("code"), Json.num 0) :: l)) = true := rfl

/-- Routing of a search request in the Bitable service model. -/
theorem serverHandle_search (b a t tok fn : String) (iid : Json) (bt : Feishu.Bitable)
    (hdrs : List (String × String)) :
    Feishu.serverHandle b a t tok bt
        ⟨("POST"), Feishu.searchUrl b a t, hdrs, Feishu.searchPayload fn iid⟩ =
      (Feishu.okResp [(("data"), Json.obj
        [(("items"), Json.arr (Feishu.searchItems bt fn (pyStr iid)))])], bt) := by
  unfold Feishu.serverHandle
  rw [if_neg (fun hc => searchUrl_ne_tokenUrl b a t hc.2), if_pos ⟨rfl, rfl⟩]
  rfl

/-- Routing of a record creation request in the Bitable service model. -/
theorem serverHandle_create (b a t tok : String) (bt : Feishu.Bitable)
    (hdrs : List (String × String)) (flds : List (String × Json)) :
    Feishu.serverHandle b a t tok bt
        ⟨("POST"), Feishu.recordsUrl b a t, hdrs, Json.obj [(("fields"), Json.obj flds)]⟩ =
      (Feishu.okResp [],
       ⟨bt.records ++ [⟨Feishu.mkRecordId bt.nextId, flds⟩], bt.nextId + 1⟩) := by
  unfold Feishu.serverHandle
  rw [if_neg (fun hc => recordsUrl_ne_tokenUrl b a t hc.2),
    if_neg (fun hc => recordsUrl_ne_searchUrl b a t hc.2), if_pos ⟨rfl, rfl⟩]
  rfl

/-- Routing of a record update request in the Bitable service model. -/
theorem serverHandle_update (b a t tok rid : String) (bt : Feishu.Bitable)
    (hdrs : List (String × String)) (flds : List (String × Json)) (r0 : Feishu.BitRecord)
    (hfind : bt.records.find?
        (fun r => Feishu.recordUrl b a t r.recordId == Feishu.recordUrl b a t rid) = some r0) :
    Feishu.serverHandle b a t tok bt
        ⟨("PUT"), Feishu.recordUrl b a t rid, hdrs, Json.obj [(("fields"), Json.obj flds)]⟩ =
      (Feishu.okResp [],
       ⟨bt.records.map (fun r => if r.recordId == r0.recordId then ⟨r.recordId, flds⟩ else r),
        bt.nextId⟩) := by
  unfold Feishu.serverHandle
  rw [if_neg (fun hc => put_ne_post hc.1), if_neg (fun hc => put_ne_post hc.1),
    if_neg (fun hc => put_ne_post hc.1), if_pos rfl, hfind]
  rfl

/-- Running `_bitable_search` against the service model when no record
matches. -/
theorem bitable_search_run_none (b a t tok btok fn : String) (iid : Json)
    (bt : Feishu.Bitable) (lg : List Feishu.NetCall)
    (hfil : bt.records.filter (Feishu.fieldMatches fn (pyStr iid)) = []) :
    Feishu._bitable_search (Feishu.serverHandle b a t tok) b btok a t iid fn ⟨bt, lg⟩ =
      (Except.ok none,
       ⟨bt, lg ++ [⟨("POST"), Feishu.searchUrl b a t, Feishu.authHeaders btok,
          Feishu.searchPayload fn iid⟩]⟩) := by
  have hitems : Feishu.searchItems bt fn (pyStr iid) = [] := by
    simp only [Feishu.searchItems, hfil]
  simp only [Feishu._bitable_search, Feishu._request_json,
    serverHandle_search b a t tok fn iid bt (Feishu.authHeaders btok), hitems, Feishu.okResp]
  rfl

/-- Running `_bitable_search` against the service model when a record
matches: the first match is reported. -/
theorem bitable_search_run_found (b a t tok btok fn : String) (iid : Json)
    (bt : Feishu.Bitable) (lg : List Feishu.NetCall) (r1 : Feishu.BitRecord)
    (rest : List Feishu.BitRecord)
    (hfil : bt.records.filter (Feishu.fieldMatches fn (pyStr iid)) = r1 :: rest) :
    Feishu._bitable_search (Feishu.serverHandle b a t tok) b btok a t iid fn ⟨bt, lg⟩ =
      (Except.ok (some r1.recordId),
       ⟨bt, lg ++ [⟨("POST"), Feishu.searchUrl b a t, Feishu.authHeaders btok,
          Feishu.searchPayload fn iid⟩]⟩) := by
  have hitems : Feishu.searchItems bt fn (pyStr iid) =
      [Json.obj [(("record_id"), Json.str r1.recordId), (("fields"), Json.obj r1.fields)]] := by
    simp only [Feishu.searchItems, hfil]
  simp only [Feishu._bitable_search, Feishu._request_json,
    serverHandle_search b a t tok fn iid bt (Feishu.authHeaders btok), hitems, Feishu.okResp]
  rfl

/-- Running the upsert against the service model when no record matches:
the create branch appends one record under a fresh id. -/
theorem bitable_upsert_create_run (b a t tok btok fn : String) (iid : Json)
    (flds : List (String × Json)) (bt : Feishu.Bitable) (lg : List Feishu.NetCall)
    (h0 : bt.records.filter (Feishu.fieldMatches fn (pyStr iid)) = []) :
    Feishu._bitable_upsert (Feishu.serverHandle b a t tok) b btok a t iid fn flds ⟨bt, lg⟩ =
      (Except.ok (),
       ⟨⟨bt.records ++ [⟨Feishu.mkRecordId bt.nextId, flds⟩], bt.nextId + 1⟩,
        lg ++ [⟨("POST"), Feishu.searchUrl b a t, Feishu.authHeaders btok,
                Feishu.searchPayload fn iid⟩,
               ⟨("POST"), Feishu.recordsUrl b a t, Feishu.authHeaders btok,
                Json.obj [(("fields"), Json.obj flds)]⟩]⟩) := by
  simp only [Feishu._bitable_upsert, bitable_search_run_none b a t tok btok fn iid bt lg h0]
  simp only [Feishu.upsertMethodUrl, Feishu._request_json,
    serverHandle_create b a t tok _ (Feishu.authHeaders btok) flds, Feishu.okResp]
  simp [List.append_assoc, codeIsZero_zero]

/-- Running the upsert against the service model when a record matches and
its id is non-empty: the update branch rewrites that record in place. -/
theorem bitable_upsert_update_run (b a t tok btok fn : String) (iid : Json)
    (flds : List (String × Json)) (bt : Feishu.Bitable) (lg : List Feishu.NetCall)
    (r1 r0 : Feishu.BitRecord) (rest : List Feishu.BitRecord)
    (hfil : bt.records.filter (Feishu.fieldMatches fn (pyStr iid)) = r1 :: rest)
    (hne : r1.recordId ≠ (""))
    (hfind : bt.records.find?
        (fun r => Feishu.recordUrl b a t r.recordId ==
          Feishu.recordUrl b a t r1.recordId) = some r0) :
    Feishu._bitable_upsert (Feishu.serverHandle b a t tok) b btok a t iid fn flds ⟨bt, lg⟩ =
      (Except.ok (),
       ⟨⟨bt.records.map (fun r => if r.recordId == r0.recordId then ⟨r.recordId, flds⟩ else r),
         bt.nextId⟩,
        lg ++ [⟨("POST"), Feishu.searchUrl b a t, Feishu.authHeaders btok,
                Feishu.searchPayload fn iid⟩,
               ⟨("PUT"), Feishu.recordUrl b a t r1.recordId, Feishu.authHeaders btok,
                Json.obj [(("fields"), Json.obj flds)]⟩]⟩) := by
  simp only [Feishu._bitable_upsert,
    bitable_search_run_found b a t tok btok fn iid bt lg r1 rest hfil]
  simp only [Feishu.upsertMethodUrl]
  rw [if_neg hne]
  simp only [Feishu._request_json,
    serverHandle_update b a t tok r1.recordId _ (Feishu.authHeaders btok) flds r0 hfind,
    Feishu.okResp]
  simp [List.append_assoc, codeIsZero_zero]

end HIC

namespace HIC

open HIC.Ts

/-- C1: running the Feishu upsert path twice with the same issue id against
a faithfully-searching table that initially holds no record for that id
leaves exactly one record for the id: the first run creates it, the second
run finds it and issues a `PUT` update of that very record — its second
network request is an update of the existing record, not a second insert —
so the table still holds exactly one record for the id, carrying the
second run's fields. -/
theorem c1_feishu_upsert_twice (b a t tok btok fn : String) (iid : Json)
    (fields1 fields2 : List (String × Json)) (bt : Feishu.Bitable)
    (lg : List Feishu.NetCall)
    (hf1 : Json.lookup fields1 fn = some (Json.str (pyStr iid)))
    (hf2 : Json.lookup fields2 fn = some (Json.str (pyStr iid)))
    (h0 : bt.records.filter (Feishu.fieldMatches fn (pyStr iid)) = [])
    (hfresh : ∀ r ∈ bt.records, r.recordId ≠ Feishu.mkRecordId bt.nextId) :
    ∃ s1 s2 : Feishu.NetState Feishu.Bitable,
      Feishu._bitable_upsert (Feishu.serverHandle b a t tok) b btok a t iid fn fields1
          ⟨bt, lg⟩ = (Except.ok (), s1) ∧
      s1.world.records.filter (Feishu.fieldMatches fn (pyStr iid)) =
        [⟨Feishu.mkRecordId bt.nextId, fields1⟩] ∧
      s1.world.records.length = bt.records.length + 1 ∧
      Feishu._bitable_upsert (Feishu.serverHandle b a t tok) b btok a t iid fn fields2 s1 =
        (Except.ok (), s2) ∧
      s2.world.records.filter (Feishu.fieldMatches fn (pyStr iid)) =
        [⟨Feishu.mkRecordId bt.nextId, fields2⟩] ∧
      s2.world.records.length = bt.records.length + 1 ∧
      s2.log = s1.log ++
        [⟨("POST"), Feishu.searchUrl b a t, Feishu.authHeaders btok,
          Feishu.searchPayload fn iid⟩,
         ⟨("PUT"), Feishu.recordUrl b a t (Feishu.mkRecordId bt.nextId),
          Feishu.authHeaders btok, Json.obj [(("fields"), Json.obj fields2)]⟩] := by
  have hm1 : Feishu.fieldMatches fn (pyStr iid) ⟨Feishu.mkRecordId bt.nextId, fields1⟩ = true := by
    simp only [Feishu.fieldMatches, hf1]
    simp
  have hm2 : Feishu.fieldMatches fn (pyStr iid) ⟨Feishu.mkRecordId bt.nextId, fields2⟩ = true := by
    simp only [Feishu.fieldMatches, hf2]
    simp
  have hrun1 := bitable_upsert_create_run b a t tok btok fn iid fields1 bt lg h0
  set new1 : Feishu.BitRecord := ⟨Feishu.mkRecordId bt.nextId, fields1⟩ with hnew1def
  set bt1 : Feishu.Bitable := ⟨bt.records ++ [new1], bt.nextId + 1⟩ with hbt1def
  set lg1 : List Feishu.NetCall :=
    lg ++ [⟨("POST"), Feishu.searchUrl b a t, Feishu.authHeaders btok,
            Feishu.searchPayload fn iid⟩,
           ⟨("POST"), Feishu.recordsUrl b a t, Feishu.authHeaders btok,
            Json.obj [(("fields"), Json.obj fields1)]⟩] with hlg1def
  have hfil1 : bt1.records.filter (Feishu.fieldMatches fn (pyStr iid)) = [new1] := by
    show (bt.records ++ [new1]).filter (Feishu.fieldMatches fn (pyStr iid)) = [new1]
    rw [List.filter_append, h0]
    simp [hm1]
  have hfind : bt1.records.find?
      (fun r => Feishu.recordUrl b a t r.recordId ==
        Feishu.recordUrl b a t new1.recordId) = some new1 := by
    show (bt.records ++ [new1]).find? _ = some new1
    rw [List.find?_append]
    have hnone : bt.records.find?
        (fun r => Feishu.recordUrl b a t r.recordId ==
          Feishu.recordUrl b a t new1.recordId) = none := by
      rw [List.find?_eq_none]
      intro r hr
      simp only [beq_iff_eq]
      intro hurl
      exact hfresh r hr (recordUrl_inj b a t _ _ hurl)
    rw [hnone]
    simp
  have hrun2 := bitable_upsert_update_run b a t tok btok fn iid fields2 bt1 lg1
    new1 new1 [] hfil1 (mkRecordId_ne_empty bt.nextId) hfind
  have hmap : bt1.records.map
      (fun r => if r.recordId == new1.recordId then
        (⟨r.recordId, fields2⟩ : Feishu.BitRecord) else r) =
      bt.records ++ [⟨Feishu.mkRecordId bt.nextId, fields2⟩] := by
    show (bt.records ++ [new1]).map _ = _
    rw [List.map_append, map_id_of_mem]
    · simp
    · intro r hr
      have hb : (r.recordId == new1.recordId) = false := by
        simp only [beq_eq_false_iff_ne]
        exact hfresh r hr
      rw [hb]
      simp
  refine ⟨⟨bt1, lg1⟩,
    ⟨⟨bt.records ++ ([⟨Feishu.mkRecordId bt.nextId, fields2⟩] : List Feishu.BitRecord),
      bt.nextId + 1⟩,
     lg1 ++ ([⟨("POST"), Feishu.searchUrl b a t, Feishu.authHeaders btok,
              Feishu.searchPayload fn iid⟩,
             ⟨("PUT"), Feishu.recordUrl b a t (Feishu.mkRecordId bt.nextId),
              Feishu.authHeaders btok, Json.obj [(("fields"), Json.obj fields2)]⟩] :
       List Feishu.NetCall)⟩,
    hrun1, hfil1, ?_, ?_, ?_, ?_, rfl⟩
  · show (bt.records ++ [new1]).length = bt.records.length + 1
    simp
  · rw [hrun2, hmap]
  · show (bt.records ++ [(⟨Feishu.mkRecordId bt.nextId, fields2⟩ : Feishu.BitRecord)]).filter
      (Feishu.fieldMatches fn (pyStr iid)) = [⟨Feishu.mkRecordId bt.nextId, fields2⟩]
    rw [List.filter_append, h0]
    simp [hm2]
  · show (bt.records ++ [(⟨Feishu.mkRecordId bt.nextId, fields2⟩ : Feishu.BitRecord)]).length =
      bt.records.length + 1
    simp

/-- Witness for `c1_feishu_upsert_twice` on an initially empty table. -/
theorem c1_feishu_upsert_twice_witness :
    (Json.lookup [(("Issue ID"), Json.str ("42"))] ("Issue ID") =
      some (Json.str (pyStr (Json.num 42)))) ∧
    (([] : List Feishu.BitRecord).filter
      (Feishu.fieldMatches ("Issue ID") (pyStr (Json.num 42))) = []) ∧
    ∃ s1 s2 : Feishu.NetState Feishu.Bitable,
      Feishu._bitable_upsert (Feishu.serverHandle ("https://b") ("APP") ("TBL") ("tok"))
          ("https://b") ("tok") ("APP") ("TBL") (Json.num 42) ("Issue ID")
          [(("Issue ID"), Json.str ("42"))] ⟨⟨[], 0⟩, []⟩ = (Except.ok (), s1) ∧
      s1.world.records.filter (Feishu.fieldMatches ("Issue ID") (pyStr (Json.num 42))) =
        [⟨Feishu.mkRecordId 0, [(("Issue ID"), Json.str ("42"))]⟩] ∧
      s1.world.records.length = ([] : List Feishu.BitRecord).length + 1 ∧
      Feishu._bitable_upsert (Feishu.serverHandle ("https://b") ("APP") ("TBL") ("tok"))
          ("https://b") ("tok") ("APP") ("TBL") (Json.num 42) ("Issue ID")
          [(("Issue ID"), Json.str ("42")), (("Title"), Json.str ("second"))] s1 =
        (Except.ok (), s2) ∧
      s2.world.records.filter (Feishu.fieldMatches ("Issue ID") (pyStr (Json.num 42))) =
        [⟨Feishu.mkRecordId 0,
          [(("Issue ID"), Json.str ("42")), (("Title"), Json.str ("second"))]⟩] ∧
      s2.world.records.length = ([] : List Feishu.BitRecord).length + 1 ∧
      s2.log = s1.log ++
        [⟨("POST"), Feishu.searchUrl ("https://b") ("APP") ("TBL"),
          Feishu.authHeaders ("tok"),
          Feishu.searchPayload ("Issue ID") (Json.num 42)⟩,
         ⟨("PUT"), Feishu.recordUrl ("https://b") ("APP") ("TBL") (Feishu.mkRecordId 0),
          Feishu.authHeaders ("tok"),
          Json.obj [(("fields"), Json.obj
            [(("Issue ID"), Json.str ("42")), (("Title"), Json.str ("second"))])]⟩] := by
  refine ⟨rfl, rfl, ?_⟩
  exact c1_feishu_upsert_twice ("https://b") ("APP") ("TBL") ("tok") ("tok") ("Issue ID")
    (Json.num 42) [(("Issue ID"), Json.str ("42"))]
    [(("Issue ID"), Json.str ("42")), (("Title"), Json.str ("second"))]
    ⟨[], 0⟩ [] rfl rfl rfl (by simp)

end HIC

namespace HIC

open HIC.Ts

/-- An HTTP-level failure of the token request aborts the run after exactly
one request. -/
theorem netPhase_token_httpError {W : Type} (h : W → Feishu.NetCall → Feishu.HttpResp × W)
    (a : Feishu.Args) (s : Feishu.NetState W) (code : Nat) (reason detail : String) (w2 : W)
    (hr : h s.world (Feishu.tokenCall a) = (Feishu.HttpResp.httpError code reason detail, w2)) :
    Feishu.netPhase h a s =
      (Except.error (("HTTP ") ++ toString code ++ (" ") ++ reason ++ (": ") ++ detail),
       ⟨w2, s.log ++ [Feishu.tokenCall a]⟩) := by
  simp only [Feishu.tokenCall] at hr
  simp [Feishu.netPhase, Feishu._get_tenant_token, Feishu._request_json, hr,
    Feishu.tokenCall, List.append_assoc]

/-- A non-zero code in the token response aborts the run after exactly one
request, with the rendered response in the message. -/
theorem netPhase_token_badCode {W : Type} (h : W → Feishu.NetCall → Feishu.HttpResp × W)
    (a : Feishu.Args) (s : Feishu.NetState W) (j : Json) (w2 : W)
    (hr : h s.world (Feishu.tokenCall a) = (Feishu.HttpResp.ok j, w2))
    (hcode : Feishu.codeIsZero j = false) :
    Feishu.netPhase h a s =
      (Except.error (("Failed to get tenant token: ") ++ jsonToString j),
       ⟨w2, s.log ++ [Feishu.tokenCall a]⟩) := by
  simp only [Feishu.tokenCall] at hr
  simp [Feishu.netPhase, Feishu._get_tenant_token, Feishu._request_json, hr, hcode,
    Feishu.tokenCall, List.append_assoc]

/-- An HTTP-level failure of the search request aborts the upsert run after
exactly two requests. -/
theorem netPhase_search_httpError {W : Type} (h : W → Feishu.NetCall → Feishu.HttpResp × W)
    (a : Feishu.Args) (s : Feishu.NetState W) (j1 : Json) (tk : String) (w2 w3 : W)
    (code : Nat) (reason detail : String)
    (htok : h s.world (Feishu.tokenCall a) = (Feishu.HttpResp.ok j1, w2))
    (hc1 : Feishu.codeIsZero j1 = true)
    (htk : Json.get? j1 ("tenant_access_token") = some (Json.str tk))
    (hup : a.upsert = true)
    (hs : h w2 (Feishu.searchCall a tk) = (Feishu.HttpResp.httpError code reason detail, w3)) :
    Feishu.netPhase h a s =
      (Except.error (("HTTP ") ++ toString code ++ (" ") ++ reason ++ (": ") ++ detail),
       ⟨w3, s.log ++ [Feishu.tokenCall a, Feishu.searchCall a tk]⟩) := by
  simp only [Feishu.tokenCall] at htok
  simp only [Feishu.searchCall] at hs
  simp [Feishu.netPhase, Feishu._get_tenant_token, Feishu._request_json, htok, hc1,
    htk, hup, Feishu._bitable_upsert, Feishu._bitable_search, hs, Feishu.tokenCall,
    Feishu.searchCall, List.append_assoc]

/-- A non-zero code in the search response aborts the upsert run after
exactly two requests, with the rendered response in the message. -/
theorem netPhase_search_badCode {W : Type} (h : W → Feishu.NetCall → Feishu.HttpResp × W)
    (a : Feishu.Args) (s : Feishu.NetState W) (j1 j2 : Json) (tk : String) (w2 w3 : W)
    (htok : h s.world (Feishu.tokenCall a) = (Feishu.HttpResp.ok j1, w2))
    (hc1 : Feishu.codeIsZero j1 = true)
    (htk : Json.get? j1 ("tenant_access_token") = some (Json.str tk))
    (hup : a.upsert = true)
    (hs : h w2 (Feishu.searchCall a tk) = (Feishu.HttpResp.ok j2, w3))
    (hc2 : Feishu.codeIsZero j2 = false) :
    Feishu.netPhase h a s =
      (Except.error (("Failed to search bitable records: ") ++ jsonToString j2),
       ⟨w3, s.log ++ [Feishu.tokenCall a, Feishu.searchCall a tk]⟩) := by
  simp only [Feishu.tokenCall] at htok
  simp only [Feishu.searchCall] at hs
  simp [Feishu.netPhase, Feishu._get_tenant_token, Feishu._request_json, htok, hc1,
    htk, hup, Feishu._bitable_upsert, Feishu._bitable_search, hs, hc2, Feishu.tokenCall,
    Feishu.searchCall, List.append_assoc]

/-- An HTTP-level failure of the write request aborts the upsert run after
exactly three requests. -/
theorem netPhase_write_httpError {W : Type} (h : W → Feishu.NetCall → Feishu.HttpResp × W)
    (a : Feishu.Args) (s : Feishu.NetState W) (j1 j2 : Json) (tk : String) (w2 w3 w4 : W)
    (code : Nat) (reason detail : String)
    (htok : h s.world (Feishu.tokenCall a) = (Feishu.HttpResp.ok j1, w2))
    (hc1 : Feishu.codeIsZero j1 = true)
    (htk : Json.get? j1 ("tenant_access_token") = some (Json.str tk))
    (hup : a.upsert = true)
    (hs : h w2 (Feishu.searchCall a tk) = (Feishu.HttpResp.ok j2, w3))
    (hc2 : Feishu.codeIsZero j2 = true)
    (hw : h w3 (Feishu.writeCall
        (Feishu.upsertMethodUrl a.base_url a.app_token a.table_id (Feishu.searchRecordId j2)).1
        (Feishu.upsertMethodUrl a.base_url a.app_token a.table_id (Feishu.searchRecordId j2)).2
        tk a.fields) = (Feishu.HttpResp.httpError code reason detail, w4)) :
    Feishu.netPhase h a s =
      (Except.error (("HTTP ") ++ toString code ++ (" ") ++ reason ++ (": ") ++ detail),
       ⟨w4, s.log ++ [Feishu.tokenCall a, Feishu.searchCall a tk,
         Feishu.writeCall
           (Feishu.upsertMethodUrl a.base_url a.app_token a.table_id
             (Feishu.searchRecordId j2)).1
           (Feishu.upsertMethodUrl a.base_url a.app_token a.table_id
             (Feishu.searchRecordId j2)).2 tk a.fields]⟩) := by
  simp only [Feishu.tokenCall] at htok
  simp only [Feishu.searchCall] at hs
  simp only [Feishu.writeCall] at hw
  simp [Feishu.netPhase, Feishu._get_tenant_token, Feishu._request_json, htok, hc1,
    htk, hup, Feishu._bitable_upsert, Feishu._bitable_search, hs, hc2, hw,
    Feishu.tokenCall, Feishu.searchCall, Feishu.writeCall, List.append_assoc]

/-- A non-zero code in the write response aborts the upsert run after
exactly three requests, with the rendered response in the message. -/
theorem netPhase_write_badCode {W : Type} (h : W → Feishu.NetCall → Feishu.HttpResp × W)
    (a : Feishu.Args) (s : Feishu.NetState W) (j1 j2 j3 : Json) (tk : String) (w2 w3 w4 : W)
    (htok : h s.world (Feishu.tokenCall a) = (Feishu.HttpResp.ok j1, w2))
    (hc1 : Feishu.codeIsZero j1 = true)
    (htk : Json.get? j1 ("tenant_access_token") = some (Json.str tk))
    (hup : a.upsert = true)
    (hs : h w2 (Feishu.searchCall a tk) = (Feishu.HttpResp.ok j2, w3))
    (hc2 : Feishu.codeIsZero j2 = true)
    (hw : h w3 (Feishu.writeCall
        (Feishu.upsertMethodUrl a.base_url a.app_token a.table_id (Feishu.searchRecordId j2)).1
        (Feishu.upsertMethodUrl a.base_url a.app_token a.table_id (Feishu.searchRecordId j2)).2
        tk a.fields) = (Feishu.HttpResp.ok j3, w4))
    (hc3 : Feishu.codeIsZero j3 = false) :
    Feishu.netPhase h a s =
      (Except.error (("Failed to upsert bitable record: ") ++ jsonToString j3),
       ⟨w4, s.log ++ [Feishu.tokenCall a, Feishu.searchCall a tk,
         Feishu.writeCall
           (Feishu.upsertMethodUrl a.base_url a.app_token a.table_id
             (Feishu.searchRecordId j2)).1
           (Feishu.upsertMethodUrl a.base_url a.app_token a.table_id
             (Feishu.searchRecordId j2)).2 tk a.fields]⟩) := by
  simp only [Feishu.tokenCall] at htok
  simp only [Feishu.searchCall] at hs
  simp only [Feishu.writeCall] at hw
  simp [Feishu.netPhase, Feishu._get_tenant_token, Feishu._request_json, htok, hc1,
    htk, hup, Feishu._bitable_upsert, Feishu._bitable_search, hs, hc2, hw, hc3,
    Feishu.tokenCall, Feishu.searchCall, Feishu.writeCall, List.append_assoc]

end HIC

namespace HIC

open HIC.Ts

/-- C4: in the Feishu sink's token/search/write sequence, every HTTP
response with a non-success status (raised as `HTTPError`) and every JSON
response with a non-zero `code` field terminates the run immediately with
an error whose message embeds the response detail, and no later request of
the sequence is issued: the failing request is the last entry of the call
log. -/
theorem c4_feishu_remote_failure_is_fatal {W : Type}
    (h : W → Feishu.NetCall → Feishu.HttpResp × W) (a : Feishu.Args) (s : Feishu.NetState W) :
    (∀ (code : Nat) (reason detail : String) (w2 : W),
      h s.world (Feishu.tokenCall a) = (Feishu.HttpResp.httpError code reason detail, w2) →
      Feishu.netPhase h a s =
        (Except.error (("HTTP ") ++ toString code ++ (" ") ++ reason ++ (": ") ++ detail),
         ⟨w2, s.log ++ [Feishu.tokenCall a]⟩) ∧
      ∃ p, (("HTTP ") ++ toString code ++ (" ") ++ reason ++ (": ") ++ detail) = p ++ detail) ∧
    (∀ (j : Json) (w2 : W),
      h s.world (Feishu.tokenCall a) = (Feishu.HttpResp.ok j, w2) →
      Feishu.codeIsZero j = false →
      Feishu.netPhase h a s =
        (Except.error (("Failed to get tenant token: ") ++ jsonToString j),
         ⟨w2, s.log ++ [Feishu.tokenCall a]⟩) ∧
      ∃ p, (("Failed to get tenant token: ") ++ jsonToString j) = p ++ jsonToString j) ∧
    (∀ (j1 : Json) (tk : String) (w2 w3 : W) (code : Nat) (reason detail : String),
      h s.world (Feishu.tokenCall a) = (Feishu.HttpResp.ok j1, w2) →
      Feishu.codeIsZero j1 = true →
      Json.get? j1 ("tenant_access_token") = some (Json.str tk) →
      a.upsert = true →
      h w2 (Feishu.searchCall a tk) = (Feishu.HttpResp.httpError code reason detail, w3) →
      Feishu.netPhase h a s =
        (Except.error (("HTTP ") ++ toString code ++ (" ") ++ reason ++ (": ") ++ detail),
         ⟨w3, s.log ++ [Feishu.tokenCall a, Feishu.searchCall a tk]⟩)) ∧
    (∀ (j1 j2 : Json) (tk : String) (w2 w3 : W),
      h s.world (Feishu.tokenCall a) = (Feishu.HttpResp.ok j1, w2) →
      Feishu.codeIsZero j1 = true →
      Json.get? j1 ("tenant_access_token") = some (Json.str tk) →
      a.upsert = true →
      h w2 (Feishu.searchCall a tk) = (Feishu.HttpResp.ok j2, w3) →
      Feishu.codeIsZero j2 = false →
      Feishu.netPhase h a s =
        (Except.error (("Failed to search bitable records: ") ++ jsonToString j2),
         ⟨w3, s.log ++ [Feishu.tokenCall a, Feishu.searchCall a tk]⟩)) ∧
    (∀ (j1 j2 : Json) (tk : String) (w2 w3 w4 : W) (code : Nat) (reason detail : String),
      h s.world (Feishu.tokenCall a) = (Feishu.HttpResp.ok j1, w2) →
      Feishu.codeIsZero j1 = true →
      Json.get? j1 ("tenant_access_token") = some (Json.str tk) →
      a.upsert = true →
      h w2 (Feishu.searchCall a tk) = (Feishu.HttpResp.ok j2, w3) →
      Feishu.codeIsZero j2 = true →
      h w3 (Feishu.writeCall
        (Feishu.upsertMethodUrl a.base_url a.app_token a.table_id
          (Feishu.searchRecordId j2)).1
        (Feishu.upsertMethodUrl a.base_url a.app_token a.table_id
          (Feishu.searchRecordId j2)).2 tk a.fields) =
        (Feishu.HttpResp.httpError code reason detail, w4) →
      Feishu.netPhase h a s =
        (Except.error (("HTTP ") ++ toString code ++ (" ") ++ reason ++ (": ") ++ detail),
         ⟨w4, s.log ++ [Feishu.tokenCall a, Feishu.searchCall a tk,
           Feishu.writeCall
             (Feishu.upsertMethodUrl a.base_url a.app_token a.table_id
               (Feishu.searchRecordId j2)).1
             (Feishu.upsertMethodUrl a.base_url a.app_token a.table_id
               (Feishu.searchRecordId j2)).2 tk a.fields]⟩)) ∧
    (∀ (j1 j2 j3 : Json) (tk : String) (w2 w3 w4 : W),
      h s.world (Feishu.tokenCall a) = (Feishu.HttpResp.ok j1, w2) →
      Feishu.codeIsZero j1 = true →
      Json.get? j1 ("tenant_access_token") = some (Json.str tk) →
      a.upsert = true →
      h w2 (Feishu.searchCall a tk) = (Feishu.HttpResp.ok j2, w3) →
      Feishu.codeIsZero j2 = true →
      h w3 (Feishu.writeCall
        (Feishu.upsertMethodUrl a.base_url a.app_token a.table_id
          (Feishu.searchRecordId j2)).1
        (Feishu.upsertMethodUrl a.base_url a.app_token a.table_id
          (Feishu.searchRecordId j2)).2 tk a.fields) = (Feishu.HttpResp.ok j3, w4) →
      Feishu.codeIsZero j3 = false →
      Feishu.netPhase h a s =
        (Except.error (("Failed to upsert bitable record: ") ++ jsonToString j3),
         ⟨w4, s.log ++ [Feishu.tokenCall a, Feishu.searchCall a tk,
           Feishu.writeCall
             (Feishu.upsertMethodUrl a.base_url a.app_token a.table_id
               (Feishu.searchRecordId j2)).1
             (Feishu.upsertMethodUrl a.base_url a.app_token a.table_id
               (Feishu.searchRecordId j2)).2 tk a.fields]⟩)) := by
  refine ⟨?_, ?_, ?_, ?_, ?_, ?_⟩
  · intro code reason detail w2 hr
    exact ⟨netPhase_token_httpError h a s code reason detail w2 hr, _, rfl⟩
  · intro j w2 hr hcode
    exact ⟨netPhase_token_badCode h a s j w2 hr hcode, _, rfl⟩
  · intro j1 tk w2 w3 code reason detail htok hc1 htk hup hs2
    exact netPhase_search_httpError h a s j1 tk w2 w3 code reason detail htok hc1 htk hup hs2
  · intro j1 j2 tk w2 w3 htok hc1 htk hup hs2 hc2
    exact netPhase_search_badCode h a s j1 j2 tk w2 w3 htok hc1 htk hup hs2 hc2
  · intro j1 j2 tk w2 w3 w4 code reason detail htok hc1 htk hup hs2 hc2 hw
    exact netPhase_write_httpError h a s j1 j2 tk w2 w3 w4 code reason detail htok hc1 htk
      hup hs2 hc2 hw
  · intro j1 j2 j3 tk w2 w3 w4 htok hc1 htk hup hs2 hc2 hw hc3
    exact netPhase_write_badCode h a s j1 j2 j3 tk w2 w3 w4 htok hc1 htk hup hs2 hc2 hw hc3

/-- Witness for `c4_feishu_remote_failure_is_fatal`: a handler that fails
the very first request with HTTP 500 yields a fatal run with exactly one
logged request. -/
theorem c4_feishu_remote_failure_is_fatal_witness :
    ((fun w _ => (Feishu.HttpResp.httpError 500 ("Internal Server Error") ("boom"), w)) :
        Unit → Feishu.NetCall → Feishu.HttpResp × Unit) ()
      (Feishu.tokenCall ⟨("https://b"), ("id"), ("sec"), ("APP"), ("TBL"), true,
        ("Issue ID"), Json.num 42, []⟩) =
      (Feishu.HttpResp.httpError 500 ("Internal Server Error") ("boom"), ()) ∧
    Feishu.netPhase
      (fun w _ => (Feishu.HttpResp.httpError 500 ("Internal Server Error") ("boom"), w))
      ⟨("https://b"), ("id"), ("sec"), ("APP"), ("TBL"), true, ("Issue ID"), Json.num 42, []⟩
      ⟨(), []⟩ =
      (Except.error (("HTTP ") ++ toString 500 ++ (" ") ++ ("Internal Server Error") ++
        (": ") ++ ("boom")),
       ⟨(), ([] : List Feishu.NetCall) ++
         [Feishu.tokenCall ⟨("https://b"), ("id"), ("sec"), ("APP"), ("TBL"), true,
           ("Issue ID"), Json.num 42, []⟩]⟩) := by
  refine ⟨rfl, ?_⟩
  exact ((c4_feishu_remote_failure_is_fatal
    (fun w _ => (Feishu.HttpResp.httpError 500 ("Internal Server Error") ("boom"), w))
    ⟨("https://b"), ("id"), ("sec"), ("APP"), ("TBL"), true, ("Issue ID"), Json.num 42, []⟩
    ⟨(), []⟩).1 500 ("Internal Server Error") ("boom") () rfl).1

end HIC

namespace HIC

open HIC.Ts

/-- With no default, a successful `os.getenv` is the variable itself. -/
theorem osGetenv_none_eq {env : Env} {name v : String}
    (h : osGetenv env name none = some v) : env name = some v := by
  unfold osGetenv at h
  cases he : env name with
  | some u =>
    rw [he] at h
    exact h
  | none =>
    rw [he] at h
    exact Option.noConfusion h

/-- A successful required lookup with no default pins the variable to a
set, non-empty value. -/
theorem feishu_env_ok_none {env : Env} {name v : String}
    (h : Feishu._env env name none = Except.ok v) :
    env name = some v ∧ v ≠ ("") := by
  have h2 := feishu_env_ok h
  exact ⟨osGetenv_none_eq h2.1, h2.2⟩

/-- A set, non-empty variable is neither absent nor empty. -/
theorem env_present_not_missing {env : Env} {name v : String}
    (hv : env name = some v) (hne : v ≠ (""))
    (hmiss : env name = none ∨ env name = some ("")) : False := by
  cases hmiss with
  | inl h2 =>
    rw [h2] at hv
    exact Option.noConfusion hv
  | inr h2 =>
    rw [h2] at hv
    injection hv with h3
    exact hne h3.symm

/-- Inversion of a successful Feishu prep: every required variable was set
and non-empty, and the loaded event mapping has an `issue` key. -/
theorem feishu_prep_ok {lo : Int} {env : Env}
    {file : String → Option (List (String × Json))} {a : Feishu.Args}
    (h : Feishu.prep lo env file = Except.ok a) :
    (∀ name ∈ Feishu.requiredVars, ∃ v, env name = some v ∧ v ≠ ("")) ∧
    (∃ p kvs, file p = some kvs ∧ (Json.lookup kvs ("issue")).isSome = true) := by
  unfold Feishu.prep at h
  cases hpath : Feishu._env env ("GITHUB_EVENT_PATH") none with
  | error e =>
    rw [hpath] at h
    simp at h
  | ok event_path =>
  rw [hpath] at h
  simp only [] at h
  cases hid : Feishu._env env ("FEISHU_APP_ID") none with
  | error e =>
    rw [hid] at h
    simp at h
  | ok app_id =>
  rw [hid] at h
  cases hsec : Feishu._env env ("FEISHU_APP_SECRET") none with
  | error e =>
    rw [hsec] at h
    simp at h
  | ok app_secret =>
  rw [hsec] at h
  cases htokv : Feishu._env env ("FEISHU_APP_TOKEN") none with
  | error e =>
    rw [htokv] at h
    simp at h
  | ok app_token =>
  rw [htokv] at h
  cases htid : Feishu._env env ("FEISHU_TABLE_ID") none with
  | error e =>
    rw [htid] at h
    simp at h
  | ok table_id =>
  rw [htid] at h
  cases hfile : file event_path with
  | none =>
    rw [hfile] at h
    simp at h
  | some event =>
  rw [hfile] at h
  simp only [] at h
  cases hiss : Json.lookup event ("issue") with
  | none =>
    rw [hiss] at h
    simp at h
  | some issue =>
  refine ⟨?_, event_path, event, hfile, by rw [hiss]; rfl⟩
  intro name hn
  simp only [Feishu.requiredVars, List.mem_cons, List.not_mem_nil, or_false] at hn
  rcases hn with rfl | rfl | rfl | rfl | rfl
  · exact ⟨event_path, feishu_env_ok_none hpath⟩
  · exact ⟨app_id, feishu_env_ok_none hid⟩
  · exact ⟨app_secret, feishu_env_ok_none hsec⟩
  · exact ⟨app_token, feishu_env_ok_none htokv⟩
  · exact ⟨table_id, feishu_env_ok_none htid⟩

/-- Inversion of a successful MySQL prep: the event path variable was set
and non-empty, and the loaded event mapping has an `issue` key. -/
theorem mysql_prep_ok {lo : Int} {env : Env}
    {file : String → Option (List (String × Json))} {args : Mysql.SqlVal × Mysql.RowVals}
    (h : Mysql.prep lo env file = Except.ok args) :
    (∃ v, env ("GITHUB_EVENT_PATH") = some v ∧ v ≠ ("")) ∧
    (∃ p kvs, file p = some kvs ∧ (Json.lookup kvs ("issue")).isSome = true) := by
  unfold Mysql.prep at h
  cases hpath : Mysql._env env ("GITHUB_EVENT_PATH") none with
  | error e =>
    rw [hpath] at h
    simp at h
  | ok event_path =>
  rw [hpath] at h
  simp only [] at h
  cases hfile : file event_path with
  | none =>
    rw [hfile] at h
    simp at h
  | some event =>
  rw [hfile] at h
  simp only [] at h
  cases hiss : Json.lookup event ("issue") with
  | none =>
    rw [hiss] at h
    simp at h
  | some issue =>
  rw [mysql_env_eq_feishu] at hpath
  exact ⟨⟨event_path, feishu_env_ok_none hpath⟩,
    event_path, event, hfile, by rw [hiss]; rfl⟩

end HIC

namespace HIC

open HIC.Ts

/-- If one of the four database variables is absent or empty, the database
phase fails while evaluating the `_connect_mysql` arguments: no connection
is attempted (empty trace) and the stored table is untouched. -/
theorem mysql_dbPhase_missing {env : Env} (id : Mysql.SqlVal) (v : Mysql.RowVals)
    (w : Mysql.DbWorld) (name : String)
    (hname : name ∈ [("MYSQL_HOST"), ("MYSQL_USER"), ("MYSQL_PASSWORD"), ("MYSQL_DATABASE")])
    (hmiss : env name = none ∨ env name = some ("")) :
    ∃ e, Mysql.dbPhase env id v w =
      ⟨Except.error e, w.table, false, false, []⟩ := by
  unfold Mysql.dbPhase
  cases h1 : Mysql._env env ("MYSQL_HOST") none with
  | error e => exact ⟨e, rfl⟩
  | ok host =>
  cases h2 : Mysql.pyInt ((osGetenv env ("MYSQL_PORT") (some ("3306"))).getD ("3306")) with
  | error e => exact ⟨e, rfl⟩
  | ok port =>
  cases h3 : Mysql._env env ("MYSQL_USER") none with
  | error e => exact ⟨e, rfl⟩
  | ok user =>
  cases h4 : Mysql._env env ("MYSQL_PASSWORD") none with
  | error e => exact ⟨e, rfl⟩
  | ok password =>
  cases h5 : Mysql._env env ("MYSQL_DATABASE") none with
  | error e => exact ⟨e, rfl⟩
  | ok database =>
  exfalso
  rw [mysql_env_eq_feishu] at h1 h3 h4 h5
  simp only [List.mem_cons, List.not_mem_nil, or_false] at hname
  rcases hname with rfl | rfl | rfl | rfl
  · exact env_present_not_missing (feishu_env_ok_none h1).1 (feishu_env_ok_none h1).2 hmiss
  · exact env_present_not_missing (feishu_env_ok_none h3).1 (feishu_env_ok_none h3).2 hmiss
  · exact env_present_not_missing (feishu_env_ok_none h4).1 (feishu_env_ok_none h4).2 hmiss
  · exact env_present_not_missing (feishu_env_ok_none h5).1 (feishu_env_ok_none h5).2 hmiss

/-- C6: for every event file whose parsed mapping lacks an `issue` key,
each script terminates with an error before any external call: the Feishu
sink's network state is returned exactly as it was (no request issued, in
particular no token acquisition), and the MySQL sink's trace is empty (no
connection opened) with the stored table unchanged. -/
theorem c6_missing_issue_aborts {W : Type} (lo lo2 : Int)
    (h : W → Feishu.NetCall → Feishu.HttpResp × W) (env env2 : Env)
    (file file2 : String → Option (List (String × Json))) (s : Feishu.NetState W)
    (w : Mysql.DbWorld)
    (hf : ∀ p kvs, file p = some kvs → Json.lookup kvs ("issue") = none)
    (hf2 : ∀ p kvs, file2 p = some kvs → Json.lookup kvs ("issue") = none) :
    (∃ e, Feishu.main lo h env file s = (Except.error e, s)) ∧
    (∃ e, Mysql.main lo2 env2 file2 w = ⟨Except.error e, w.table, false, false, []⟩) := by
  constructor
  · cases hp : Feishu.prep lo env file with
    | error e =>
      refine ⟨e, ?_⟩
      unfold Feishu.main
      rw [hp]
    | ok a =>
      exfalso
      obtain ⟨p, kvs, hfp, hsome⟩ := (feishu_prep_ok hp).2
      rw [hf p kvs hfp] at hsome
      exact Bool.noConfusion hsome
  · cases hp : Mysql.prep lo2 env2 file2 with
    | error e =>
      refine ⟨e, ?_⟩
      unfold Mysql.main
      rw [hp]
    | ok args =>
      exfalso
      obtain ⟨p, kvs, hfp, hsome⟩ := (mysql_prep_ok hp).2
      rw [hf2 p kvs hfp] at hsome
      exact Bool.noConfusion hsome

/-- Witness for `c6_missing_issue_aborts` at a concrete issue-less event. -/
theorem c6_missing_issue_aborts_witness :
    (∀ p kvs, (fun (_ : String) => some [(("action"), Json.str ("opened"))]) p = some kvs →
      Json.lookup kvs ("issue") = none) ∧
    ((∃ e, Feishu.main 0
        (fun (w : Unit) (_ : Feishu.NetCall) => (Feishu.HttpResp.ok Json.null, w))
        (fun _ => some ("x"))
        (fun (_ : String) => some [(("action"), Json.str ("opened"))]) ⟨(), []⟩ =
        (Except.error e, ⟨(), []⟩)) ∧
     (∃ e, Mysql.main 0 (fun _ => some ("x"))
        (fun (_ : String) => some [(("action"), Json.str ("opened"))])
        ⟨true, true, true, [], 7⟩ =
        ⟨Except.error e, (⟨true, true, true, [], 7⟩ : Mysql.DbWorld).table,
         false, false, []⟩)) := by
  have hf : ∀ p kvs, (fun (_ : String) => some [(("action"), Json.str ("opened"))]) p =
      some kvs → Json.lookup kvs ("issue") = none := by
    intro p kvs hk
    cases hk
    rfl
  exact ⟨hf, c6_missing_issue_aborts 0 0
    (fun (w : Unit) (_ : Feishu.NetCall) => (Feishu.HttpResp.ok Json.null, w))
    (fun _ => some ("x")) (fun _ => some ("x"))
    (fun (_ : String) => some [(("action"), Json.str ("opened"))])
    (fun (_ : String) => some [(("action"), Json.str ("opened"))])
    ⟨(), []⟩ ⟨true, true, true, [], 7⟩ hf hf⟩

/-- C7: if any required environment variable (event path and the Feishu
app id, app secret, app token, table id for the Feishu sink; event path
and the MySQL host, user, password, database for the MySQL sink) is absent
or empty, the corresponding script terminates with an error before any
network or database call: the Feishu network state is returned unchanged
and the MySQL trace is empty with the stored table unchanged. -/
theorem c7_missing_env_aborts {W : Type} (lo lo2 : Int)
    (h : W → Feishu.NetCall → Feishu.HttpResp × W) (env env2 : Env)
    (file file2 : String → Option (List (String × Json))) (s : Feishu.NetState W)
    (w : Mysql.DbWorld) (name name2 : String)
    (hmem : name ∈ Feishu.requiredVars)
    (hmiss : env name = none ∨ env name = some (""))
    (hmem2 : name2 ∈ Mysql.requiredVars)
    (hmiss2 : env2 name2 = none ∨ env2 name2 = some ("")) :
    (∃ e, Feishu.main lo h env file s = (Except.error e, s)) ∧
    (∃ e, Mysql.main lo2 env2 file2 w = ⟨Except.error e, w.table, false, false, []⟩) := by
  constructor
  · cases hp : Feishu.prep lo env file with
    | error e =>
      refine ⟨e, ?_⟩
      unfold Feishu.main
      rw [hp]
    | ok a =>
      exfalso
      obtain ⟨v, hv, hne⟩ := (feishu_prep_ok hp).1 name hmem
      exact env_present_not_missing hv hne hmiss
  · cases hp : Mysql.prep lo2 env2 file2 with
    | error e =>
      refine ⟨e, ?_⟩
      unfold Mysql.main
      rw [hp]
    | ok args =>
      simp only [Mysql.requiredVars, List.mem_cons, List.not_mem_nil, or_false] at hmem2
      rcases hmem2 with rfl | hmem2'
      · exfalso
        obtain ⟨v, hv, hne⟩ := (mysql_prep_ok hp).1
        exact env_present_not_missing hv hne hmiss2
      · obtain ⟨e, hdb⟩ := mysql_dbPhase_missing args.1 args.2 w name2
          (by simp only [List.mem_cons, List.not_mem_nil, or_false]; exact hmem2') hmiss2
        refine ⟨e, ?_⟩
        unfold Mysql.main
        rw [hp]
        exact hdb

/-- Witness for `c7_missing_env_aborts`: environments lacking
`FEISHU_APP_ID` and `MYSQL_PASSWORD`. -/
theorem c7_missing_env_aborts_witness :
    (("FEISHU_APP_ID") ∈ Feishu.requiredVars) ∧
    (("MYSQL_PASSWORD") ∈ Mysql.requiredVars) ∧
    ((∃ e, Feishu.main 0
        (fun (w : Unit) (_ : Feishu.NetCall) => (Feishu.HttpResp.ok Json.null, w))
        (fun n => if n = ("GITHUB_EVENT_PATH") then some ("x") else none)
        (fun (_ : String) => none) ⟨(), []⟩ = (Except.error e, ⟨(), []⟩)) ∧
     (∃ e, Mysql.main 0
        (fun n => if n = ("MYSQL_PASSWORD") then some ("") else some ("y"))
        (fun (_ : String) => none) ⟨true, true, true, [], 7⟩ =
        ⟨Except.error e, (⟨true, true, true, [], 7⟩ : Mysql.DbWorld).table,
         false, false, []⟩)) := by
  refine ⟨by simp [Feishu.requiredVars], by simp [Mysql.requiredVars], ?_⟩
  exact c7_missing_env_aborts 0 0
    (fun (w : Unit) (_ : Feishu.NetCall) => (Feishu.HttpResp.ok Json.null, w))
    (fun n => if n = ("GITHUB_EVENT_PATH") then some ("x") else none)
    (fun n => if n = ("MYSQL_PASSWORD") then some ("") else some ("y"))
    (fun (_ : String) => none) (fun (_ : String) => none)
    ⟨(), []⟩ ⟨true, true, true, [], 7⟩ ("FEISHU_APP_ID") ("MYSQL_PASSWORD")
    (by simp [Feishu.requiredVars]) (Or.inl rfl)
    (by simp [Mysql.requiredVars]) (Or.inr rfl)

end HIC

namespace HIC

open HIC.Ts

/-- C8: the extractor joins label names and assignee logins with the
delimiter `", "` — for labels `["bug", "P1"]` and assignees `["alice"]` it
produces `"bug, P1"` and `"alice"` — and an empty extracted list yields a
null field, never the empty string; the `Labels` and `Assignees` entries of
the record fields built by `main` carry exactly these joined values
(whenever the configurable issue-id column name does not shadow them, as
the default `"Issue ID"` does not). -/
theorem c8_joined_fields :
    (extractNames [Json.obj [(("name"), Json.str ("bug"))],
                   Json.obj [(("name"), Json.str ("P1"))]] ("name") =
      [Json.str ("bug"), Json.str ("P1")]) ∧
    (Feishu.joinedField [Json.str ("bug"), Json.str ("P1")] = Json.str ("bug, P1")) ∧
    (extractNames [Json.obj [(("login"), Json.str ("alice"))]] ("login") =
      [Json.str ("alice")]) ∧
    (Feishu.joinedField [Json.str ("alice")] = Json.str ("alice")) ∧
    (∀ names : List String, Feishu.joinedField (names.map Json.str) =
      if names.isEmpty then Json.null
      else Json.str (String.intercalate (", ") names)) ∧
    (∀ (items : List Json) (key : String), extractNames items key = [] →
      Feishu.joinedField (extractNames items key) = Json.null ∧
      Feishu.joinedField (extractNames items key) ≠ Json.str ("")) ∧
    (∀ (fldName : String) (issue action : Json) (c u cl : Option String) (body : Json),
      fldName ≠ ("Labels") → fldName ≠ ("Assignees") →
      Json.lookup (Feishu.recordFields fldName issue action c u cl body) ("Labels") =
        some (Feishu.joinedField
          (extractNames (Json.asArr (Json.getOr issue ("labels") (Json.arr []))) ("name"))) ∧
      Json.lookup (Feishu.recordFields fldName issue action c u cl body) ("Assignees") =
        some (Feishu.joinedField
          (extractNames (Json.asArr (Json.getOr issue ("assignees") (Json.arr [])))
            ("login")))) := by
  refine ⟨rfl, rfl, rfl, rfl, ?_, ?_, ?_⟩
  · intro names
    cases names with
    | nil => rfl
    | cons n ns =>
      have hm : List.map (pyStr ∘ Json.str) ns = ns :=
        map_id_of_mem ns (pyStr ∘ Json.str) (fun x _ => rfl)
      simp [Feishu.joinedField, List.map_map, pyStr, Function.comp, hm]
  · intro items key hemp
    rw [hemp]
    refine ⟨rfl, ?_⟩
    intro hcon
    simp [Feishu.joinedField] at hcon
  · intro fldName issue action c u cl body h1 h2
    constructor
    · simp [Feishu.recordFields, Json.lookup, h1]
    · simp [Feishu.recordFields, Json.lookup, h1, h2]

/-- Witness for `c8_joined_fields` at the default issue-id column name. -/
theorem c8_joined_fields_witness :
    ((("Issue ID") : String) ≠ ("Labels")) ∧
    (Json.lookup (Feishu.recordFields ("Issue ID")
        (Json.obj [(("labels"), Json.arr [Json.obj [(("name"), Json.str ("bug"))],
                                          Json.obj [(("name"), Json.str ("P1"))]])])
        (Json.str ("opened")) none none none Json.null) ("Labels") =
      some (Feishu.joinedField (extractNames
        (Json.asArr (Json.getOr
          (Json.obj [(("labels"), Json.arr [Json.obj [(("name"), Json.str ("bug"))],
                                            Json.obj [(("name"), Json.str ("P1"))]])])
          ("labels") (Json.arr []))) ("name")))) := by
  refine ⟨by decide, ?_⟩
  exact ((c8_joined_fields.2.2.2.2.2.2)
    ("Issue ID")
    (Json.obj [(("labels"), Json.arr [Json.obj [(("name"), Json.str ("bug"))],
                                      Json.obj [(("name"), Json.str ("P1"))]])])
    (Json.str ("opened")) none none none Json.null (by decide) (by decide)).1

/-- C2: modelling the table as a map keyed by the primary key and the
statement's insert-or-update-on-conflict semantics, running the MySQL
upsert twice with the same non-null issue id on a table with no row for
that id leaves exactly one row for the id: the first run inserts it, the
second run updates it in place, setting `event_received_at` to the second
run's `CURRENT_TIMESTAMP` and every other column to the second
parameters' values. -/
theorem c2_mysql_upsert_twice (table : Mysql.Table) (id : Mysql.SqlVal)
    (v1 v2 : Mysql.RowVals) (t1 t2 : Int)
    (hid : id ≠ Mysql.SqlVal.null)
    (h0 : table.filter (fun kv => kv.1 == id) = []) :
    ∃ tbl1 tbl2 : Mysql.Table,
      Mysql.upsertStmt table id v1 t1 = Except.ok tbl1 ∧
      tbl1 = table ++ [(id, Mysql.insertRow v1 t1)] ∧
      Mysql.upsertStmt tbl1 id v2 t2 = Except.ok tbl2 ∧
      tbl2.filter (fun kv => kv.1 == id) =
        [(id, Mysql.updateRow (Mysql.insertRow v1 t1) v2 t2)] ∧
      tbl2.length = table.length + 1 ∧
      (Mysql.updateRow (Mysql.insertRow v1 t1) v2 t2).event_received_at = t2 ∧
      Mysql.updateRow (Mysql.insertRow v1 t1) v2 t2 =
        ⟨v2.number, v2.title, v2.body, v2.state, v2.created_at, v2.updated_at,
         v2.closed_at, v2.url, v2.user_login, v2.labels, v2.assignees, v2.event_action,
         v2.payload, t2⟩ := by
  have hfind0 : table.find? (fun kv => kv.1 == id) = none :=
    find?_eq_none_of_filter_nil _ _ h0
  have hmem0 : ∀ kv ∈ table, (kv.1 == id) = false := by
    intro kv hkv
    have h2 := List.filter_eq_nil_iff.mp h0 kv hkv
    simpa using h2
  have hrun1 : Mysql.upsertStmt table id v1 t1 =
      Except.ok (table ++ [(id, Mysql.insertRow v1 t1)]) := by
    simp [Mysql.upsertStmt, hid, hfind0]
  have hfind1 : (table ++ [(id, Mysql.insertRow v1 t1)]).find? (fun kv => kv.1 == id) =
      some (id, Mysql.insertRow v1 t1) := by
    rw [List.find?_append, hfind0]
    simp
  have hrun2 : Mysql.upsertStmt (table ++ [(id, Mysql.insertRow v1 t1)]) id v2 t2 =
      Except.ok ((table ++ [(id, Mysql.insertRow v1 t1)]).map
        (fun kv => if kv.1 == id then (kv.1, Mysql.updateRow kv.2 v2 t2) else kv)) := by
    simp [Mysql.upsertStmt, hid, hfind1]
  have hmap : (table ++ [(id, Mysql.insertRow v1 t1)]).map
      (fun kv => if kv.1 == id then (kv.1, Mysql.updateRow kv.2 v2 t2) else kv) =
      table ++ [(id, Mysql.updateRow (Mysql.insertRow v1 t1) v2 t2)] := by
    rw [List.map_append, map_id_of_mem]
    · simp
    · intro kv hkv
      rw [hmem0 kv hkv]
      simp
  refine ⟨table ++ [(id, Mysql.insertRow v1 t1)],
    table ++ [(id, Mysql.updateRow (Mysql.insertRow v1 t1) v2 t2)],
    hrun1, rfl, by rw [hrun2, hmap], ?_, by simp, rfl, rfl⟩
  rw [List.filter_append, h0]
  simp

/-- Witness for `c2_mysql_upsert_twice` on an initially empty table. -/
theorem c2_mysql_upsert_twice_witness :
    ((Mysql.SqlVal.int 42) ≠ Mysql.SqlVal.null) ∧
    ∃ tbl1 tbl2 : Mysql.Table,
      Mysql.upsertStmt [] (Mysql.SqlVal.int 42)
          ⟨Mysql.SqlVal.int 7, Mysql.SqlVal.str ("t1"), Mysql.SqlVal.null,
           Mysql.SqlVal.str ("open"), Mysql.SqlVal.null, Mysql.SqlVal.null,
           Mysql.SqlVal.null, Mysql.SqlVal.null, Mysql.SqlVal.null,
           Mysql.SqlVal.str ("[]"), Mysql.SqlVal.str ("[]"),
           Mysql.SqlVal.str ("opened"), Mysql.SqlVal.str ("p1")⟩ 100 = Except.ok tbl1 ∧
      tbl1 = [] ++ [((Mysql.SqlVal.int 42),
        Mysql.insertRow ⟨Mysql.SqlVal.int 7, Mysql.SqlVal.str ("t1"), Mysql.SqlVal.null,
          Mysql.SqlVal.str ("open"), Mysql.SqlVal.null, Mysql.SqlVal.null,
          Mysql.SqlVal.null, Mysql.SqlVal.null, Mysql.SqlVal.null,
          Mysql.SqlVal.str ("[]"), Mysql.SqlVal.str ("[]"),
          Mysql.SqlVal.str ("opened"), Mysql.SqlVal.str ("p1")⟩ 100)] ∧
      Mysql.upsertStmt tbl1 (Mysql.SqlVal.int 42)
          ⟨Mysql.SqlVal.int 7, Mysql.SqlVal.str ("t2"), Mysql.SqlVal.null,
           Mysql.SqlVal.str ("closed"), Mysql.SqlVal.null, Mysql.SqlVal.null,
           Mysql.SqlVal.null, Mysql.SqlVal.null, Mysql.SqlVal.null,
           Mysql.SqlVal.str ("[]"), Mysql.SqlVal.str ("[]"),
           Mysql.SqlVal.str ("closed"), Mysql.SqlVal.str ("p2")⟩ 200 = Except.ok tbl2 ∧
      tbl2.filter (fun kv => kv.1 == (Mysql.SqlVal.int 42)) =
        [((Mysql.SqlVal.int 42), Mysql.updateRow
          (Mysql.insertRow ⟨Mysql.SqlVal.int 7, Mysql.SqlVal.str ("t1"), Mysql.SqlVal.null,
            Mysql.SqlVal.str ("open"), Mysql.SqlVal.null, Mysql.SqlVal.null,
            Mysql.SqlVal.null, Mysql.SqlVal.null, Mysql.SqlVal.null,
            Mysql.SqlVal.str ("[]"), Mysql.SqlVal.str ("[]"),
            Mysql.SqlVal.str ("opened"), Mysql.SqlVal.str ("p1")⟩ 100)
          ⟨Mysql.SqlVal.int 7, Mysql.SqlVal.str ("t2"), Mysql.SqlVal.null,
           Mysql.SqlVal.str ("closed"), Mysql.SqlVal.null, Mysql.SqlVal.null,
           Mysql.SqlVal.null, Mysql.SqlVal.null, Mysql.SqlVal.null,
           Mysql.SqlVal.str ("[]"), Mysql.SqlVal.str ("[]"),
           Mysql.SqlVal.str ("closed"), Mysql.SqlVal.str ("p2")⟩ 200)] ∧
      tbl2.length = ([] : Mysql.Table).length + 1 ∧
      (Mysql.updateRow
        (Mysql.insertRow ⟨Mysql.SqlVal.int 7, Mysql.SqlVal.str ("t1"), Mysql.SqlVal.null,
          Mysql.SqlVal.str ("open"), Mysql.SqlVal.null, Mysql.SqlVal.null,
          Mysql.SqlVal.null, Mysql.SqlVal.null, Mysql.SqlVal.null,
          Mysql.SqlVal.str ("[]"), Mysql.SqlVal.str ("[]"),
          Mysql.SqlVal.str ("opened"), Mysql.SqlVal.str ("p1")⟩ 100)
        ⟨Mysql.SqlVal.int 7, Mysql.SqlVal.str ("t2"), Mysql.SqlVal.null,
         Mysql.SqlVal.str ("closed"), Mysql.SqlVal.null, Mysql.SqlVal.null,
         Mysql.SqlVal.null, Mysql.SqlVal.null, Mysql.SqlVal.null,
         Mysql.SqlVal.str ("[]"), Mysql.SqlVal.str ("[]"),
         Mysql.SqlVal.str ("closed"), Mysql.SqlVal.str ("p2")⟩ 200).event_received_at =
        200 := by
  refine ⟨by decide, ?_⟩
  obtain ⟨tbl1, tbl2, a1, a2, a3, a4, a5, a6, _⟩ :=
    c2_mysql_upsert_twice [] (Mysql.SqlVal.int 42)
      ⟨Mysql.SqlVal.int 7, Mysql.SqlVal.str ("t1"), Mysql.SqlVal.null,
       Mysql.SqlVal.str ("open"), Mysql.SqlVal.null, Mysql.SqlVal.null,
       Mysql.SqlVal.null, Mysql.SqlVal.null, Mysql.SqlVal.null,
       Mysql.SqlVal.str ("[]"), Mysql.SqlVal.str ("[]"),
       Mysql.SqlVal.str ("opened"), Mysql.SqlVal.str ("p1")⟩
      ⟨Mysql.SqlVal.int 7, Mysql.SqlVal.str ("t2"), Mysql.SqlVal.null,
       Mysql.SqlVal.str ("closed"), Mysql.SqlVal.null, Mysql.SqlVal.null,
       Mysql.SqlVal.null, Mysql.SqlVal.null, Mysql.SqlVal.null,
       Mysql.SqlVal.str ("[]"), Mysql.SqlVal.str ("[]"),
       Mysql.SqlVal.str ("closed"), Mysql.SqlVal.str ("p2")⟩
      100 200 (by decide) rfl
  exact ⟨tbl1, tbl2, a1, a2, a3, a4, a5, a6⟩

/-- C5: in the MySQL sink, `commit` runs exactly when the schema statement
and the upsert statement both succeed; the stored table is unchanged
whenever nothing was committed (implicit rollback on error); a connection
that was opened is always closed, and no connection remains open at the
end of any run. -/
theorem c5_mysql_commit_iff (lo : Int) (env : Env)
    (file : String → Option (List (String × Json))) (w : Mysql.DbWorld) :
    (Mysql.main lo env file w).connOpen = false ∧
    ((Mysql.main lo env file w).committed = true ↔
      ((("execute:schema:ok")) ∈ (Mysql.main lo env file w).trace ∧
       (("execute:upsert:ok")) ∈ (Mysql.main lo env file w).trace)) ∧
    ((("commit")) ∈ (Mysql.main lo env file w).trace ↔
      (Mysql.main lo env file w).committed = true) ∧
    ((Mysql.main lo env file w).committed = false →
      (Mysql.main lo env file w).table = w.table) ∧
    ((("connect:ok")) ∈ (Mysql.main lo env file w).trace →
      (("close")) ∈ (Mysql.main lo env file w).trace) := by
  unfold Mysql.main
  cases hp : Mysql.prep lo env file with
  | error e => simp
  | ok args =>
  unfold Mysql.dbPhase
  cases h1 : Mysql._env env ("MYSQL_HOST") none with
  | error e => simp
  | ok host =>
  cases h2 : Mysql.pyInt ((osGetenv env ("MYSQL_PORT") (some ("3306"))).getD ("3306")) with
  | error e => simp
  | ok port =>
  cases h3 : Mysql._env env ("MYSQL_USER") none with
  | error e => simp
  | ok user =>
  cases h4 : Mysql._env env ("MYSQL_PASSWORD") none with
  | error e => simp
  | ok password =>
  cases h5 : Mysql._env env ("MYSQL_DATABASE") none with
  | error e => simp
  | ok database =>
  cases hcon : w.connectOk with
  | false => simp [hcon]
  | true =>
  cases hsch : w.schemaOk with
  | false => simp [hcon, hsch]
  | true =>
  cases hexe : w.execOk with
  | false => simp [hcon, hsch, hexe]
  | true =>
  cases hups : Mysql.upsertStmt w.table args.1 args.2 w.now with
  | error e => simp [hcon, hsch, hexe, hups]
  | ok t2 => simp [hcon, hsch, hexe, hups]

end HIC

namespace HIC

/-- Witness for `c5_mysql_commit_iff`: with an empty environment the run
fails before connecting, commits nothing, and leaves the stored table
unchanged. -/
theorem c5_mysql_commit_iff_witness :
    (Mysql.main 0 (fun _ => none) (fun (_ : String) => none)
      ⟨true, true, true, [], 7⟩).committed = false ∧
    (Mysql.main 0 (fun _ => none) (fun (_ : String) => none)
      ⟨true, true, true, [], 7⟩).table =
      (⟨true, true, true, [], 7⟩ : Mysql.DbWorld).table := by
  refine ⟨rfl, ?_⟩
  exact (c5_mysql_commit_iff 0 (fun _ => none) (fun (_ : String) => none)
    ⟨true, true, true, [], 7⟩).2.2.2.1 rfl

end HIC
